import Mathlib

/-! # goiabada auth server: session middleware, step-up gate, OTP enrollment, password change

A shallow embedding of

* `internal/server/middleware_jwt.go`,
* `internal/server/handler_account_change_password.go`,
* `internal/server/handler_account_otp.go`,
* `internal/server/handler_admin_clients_manage_oauth2_flows.go` (the POST handler).

A handler is a function from the request and the world (the persisted session record and
the user table) to the ordered list of the collaborator calls it makes (its trace) and
the world it leaves behind.  The collaborators that live outside these files (password
hashing, the policy validator, the TOTP engine, the template renderer, the session store
and the database) are fields of `Env`.
-/

namespace Goiabada

/-! ## Data model -/

/-- Modelled from the spec: the `enums.AcrLevel` declaration is not among the sources; the
spec gives three ordered assurance levels. -/
inductive AcrLevel where
  | AcrLevel1
  | AcrLevel2
  | AcrLevel3
  deriving DecidableEq, Repr

/-- Position of an assurance level in the order of the spec (1, 2, 3). -/
def AcrLevel.ordinal : AcrLevel → Nat
  | .AcrLevel1 => 1
  | .AcrLevel2 => 2
  | .AcrLevel3 => 3

/-- Modelled from the spec: `dtos.JwtInfo` is not among the sources. The handlers use two
of its methods, `GetIdTokenAcrLevel()` (a pointer, nil when there is no level) and
`IdTokenClaims.GetSubject()` (a string or an error); the record holds their results.
`Scopes` stands for what `isAuthorizedToAccessResource` reads. -/
structure JwtInfo where
  IdTokenAcrLevel : Option AcrLevel
  Subject : Option String
  Scopes : List String
  deriving DecidableEq, Repr

/-- The zero value of `var jwtInfo dtos.JwtInfo`: no token, hence no level; `GetSubject`
on empty claims yields the empty string. -/
def JwtInfo.zero : JwtInfo := ⟨none, some "", []⟩

/-- Modelled from the spec: `dtos.TokenResponse` is not among the sources; an abstract token
bundle held in the session. -/
structure TokenResponse where
  AccessToken : String
  IdToken : String
  RefreshToken : String
  deriving DecidableEq, Repr

/-- A value stored under `context.Context` (an `interface{}` in Go). -/
inductive CtxVal where
  | jwtInfo (j : JwtInfo)
  | settings
  | other
  deriving DecidableEq, Repr

/-- A value of the session map `map[interface{}]interface{}`: dynamically typed. -/
inductive SessVal where
  | nil
  | int (n : Int)
  | str (s : String)
  | tokenResponse (t : TokenResponse)
  | other
  deriving DecidableEq, Repr

/-- The entries of `sess.Values` that the embedded code touches, one optional slot per
key (`none`: the key is not in the map), and the remaining entries. -/
structure Values where
  Jwt : Option SessVal
  RedirToAuthorizeCount : Option SessVal
  OTPSecret : Option SessVal
  OTPImage : Option SessVal
  rest : List (String × SessVal)
  deriving DecidableEq, Repr

/-- The user entity (`entities.User`), restricted to the fields the handlers read or
write. -/
structure User where
  Id : Nat
  Subject : String
  PasswordHash : String
  OTPSecret : String
  OTPEnabled : Bool
  ForgotPasswordCodeEncrypted : Option (List Nat)
  ForgotPasswordCodeIssuedAt : Option Nat
  deriving DecidableEq, Repr

/-- The request as the handlers see it. -/
structure Request where
  ctxJwtInfo : Option CtxVal
  ctxSettings : Option CtxVal
  xRequestedWith : String
  RequestURI : String
  form : List (String × String)
  deriving DecidableEq, Repr

/-- A value bound for the template renderer. -/
inductive BindVal where
  | str (s : String)
  | bool (b : Bool)
  | csrfField
  deriving DecidableEq, Repr

/-- One observable action of a handler, in the order performed. -/
inductive Event where
  | httpError (status : Nat) (msg : String)
  | jsonUnauthorized
  | sessionGet
  | sessionSave (v : Values)
  | unauthorizedPage
  | redirToAuthorize (clientIdentifier : String) (referrer : String)
  | nextHandler (ctx : Option CtxVal)
  | getUserBySubject (sub : String)
  | updateUser (u : User)
  | generateOTPSecret (u : User)
  | renderTemplate (page : String) (bind : List (String × BindVal))
  | internalServerError
  | redirect (url : String) (status : Nat)
  | abort
  deriving DecidableEq, Repr

/-- The persisted state: the session record of this browser and the user table. -/
structure World where
  session : Values
  db : List User
  deriving DecidableEq, Repr

/-- What a handler did and what it left behind. -/
structure Outcome where
  trace : List Event
  world : World
  deriving DecidableEq, Repr

/-- The collaborators outside the embedded files. A `...Err` flag makes the corresponding
call return an error; `sessionGetErrText` and `sessionSaveErrText` are the `err.Error()` of
a failing `sessionStore.Get` and `sess.Save`. `redirToAuthorize` maps the session values of the request (as the
caller left them in memory), the client identifier and the referrer to the session record
persisted when it returns. -/
structure Env where
  baseUrl : String
  isAuthorizedToAccessResource : JwtInfo → List String → Bool
  redirToAuthorize : Values → String → String → Values
  sessionGetErr : Bool
  sessionSaveErr : Bool
  getUserErr : Bool
  updateUserErr : Bool
  renderErr : Bool
  VerifyPasswordHash : String → String → Bool
  HashPassword : String → Option String
  ValidatePassword : String → Option String
  GenerateOTPSecret : User → Option (String × String)
  totpValidate : String → String → Bool
  sessionGetErrText : String
  sessionSaveErrText : String

/-! ## Small library functions -/

/-- Go `unicode.IsSpace`. -/
def isSpace (c : Char) : Bool :=
  c = '\t' || c = '\n' || c.toNat = 0x0B || c.toNat = 0x0C || c = '\r' || c = ' ' ||
  c.toNat = 0x85 || c.toNat = 0xA0 || c.toNat = 0x1680 ||
  (0x2000 ≤ c.toNat && c.toNat ≤ 0x200A) ||
  c.toNat = 0x2028 || c.toNat = 0x2029 || c.toNat = 0x202F || c.toNat = 0x205F ||
  c.toNat = 0x3000

/-- Go `strings.TrimSpace`: leading and trailing white space removed. -/
def TrimSpace (s : String) : String :=
  String.mk ((s.toList.dropWhile isSpace).reverse.dropWhile isSpace).reverse

/-- Go `r.FormValue(key)`: the first value of the key, the empty string when absent. -/
def FormValue (r : Request) (key : String) : String :=
  match r.form.find? (fun p => p.1 == key) with
  | some p => p.2
  | none => ""

/-- Go `redirectCount++` on a 64-bit `int`. -/
def incInt (n : Int) : Int :=
  if n = 2 ^ 63 - 1 then -(2 ^ 63) else n + 1

/-- Modelled from the spec: the database package is not among the sources (`CredentialStore
getBySubject`). The record with this subject, `none` when there is none. -/
def GetUserBySubject (db : List User) (sub : String) : Option User :=
  db.find? (fun u => u.Subject == sub)

/-- Modelled from the spec: the database package is not among the sources (`CredentialStore
update`). The stored record of the same identifier is replaced. -/
def UpdateUser (db : List User) (u : User) : List User :=
  db.map (fun x => if x.Id = u.Id then u else x)

/-- The records written by the `UpdateUser` calls of a trace, in order. -/
def updates : List Event → List User
  | [] => []
  | .updateUser u :: t => u :: updates t
  | _ :: t => updates t

/-- The `error` messages of the pages rendered in a trace, in order. -/
def rejections : List Event → List String
  | [] => []
  | .renderTemplate _ bind :: t =>
    match bind.find? (fun p => p.1 == "error") with
    | some (_, .str m) => m :: rejections t
    | _ => rejections t
  | _ :: t => rejections t

/-- Go `len(s)` of a string: its length in bytes. -/
def len (s : String) : Nat := s.utf8ByteSize

/-- The pattern `err := s.renderTemplate(...); if err != nil { s.internalServerError(...) }`:
the page is rendered, and a failure of the renderer is answered with the fatal page. -/
def renderTemplate (env : Env) (page : String) (bind : List (String × BindVal)) : List Event :=
  if env.renderErr then [.renderTemplate page bind, .internalServerError]
  else [.renderTemplate page bind]

/-! ## `middleware_jwt.go` -/

/-- Lines 49-57 of middleware_jwt.go: the zero `JwtInfo` when the context holds no value,
the value when it is a `JwtInfo`, `none` when the checked assertion fails. -/
def contextJwtInfo (ctx : Option CtxVal) : Option JwtInfo :=
  match ctx with
  | none => some JwtInfo.zero
  | some (.jwtInfo j) => some j
  | some _ => none

/-- `MiddlewareRequiresScope` (middleware_jwt.go, lines 43-119): one request through the
scope check and the redirect-loop breaker. -/
def MiddlewareRequiresScope (env : Env) (clientIdentifier : String) (scopesAnyOf : List String)
    (r : Request) (w : World) : Outcome :=
  let _ := clientIdentifier
  match contextJwtInfo r.ctxJwtInfo with
  | none =>
    ⟨[.httpError 500 "unable to cast the context value to JwtInfo in WithAuthorization middleware"], w⟩
  | some jwtInfo =>
    let isAuthorized := env.isAuthorizedToAccessResource jwtInfo scopesAnyOf
    if r.xRequestedWith = "XMLHttpRequest" then
      if !isAuthorized then ⟨[.jsonUnauthorized], w⟩
      else ⟨[.nextHandler r.ctxJwtInfo], w⟩
    else if env.sessionGetErr then
      ⟨[.sessionGet, .httpError 500
        ("unable to get the session in WithAuthorization middleware: " ++ env.sessionGetErrText)], w⟩
    else
      let sess := w.session
      if !isAuthorized then
        -- lines 77-87
        let count : Option Int :=
          match sess.RedirToAuthorizeCount with
          | none => some 1
          | some .nil => some 1
          | some (.int n) => some (incInt n)
          | some _ => none
        match count with
        | none =>
          ⟨[.sessionGet, .httpError 500 "unable to cast the session value (SessionKeyRedirToAuthorizeCount) to int in WithAuthorization middleware"], w⟩
        | some redirectCount =>
          let sess := { sess with RedirToAuthorizeCount := some (.int redirectCount) }
          if redirectCount > 2 then
            -- reset the counter
            let sess := { sess with RedirToAuthorizeCount := none }
            if env.sessionSaveErr then
              ⟨[.sessionGet, .sessionSave sess,
                .httpError 500 ("unable to save the session in WithAuthorization middleware: "
                  ++ env.sessionSaveErrText)], w⟩
            else
              -- prevent infinite loop
              ⟨[.sessionGet, .sessionSave sess, .unauthorizedPage], { w with session := sess }⟩
          else
            ⟨[.sessionGet, .redirToAuthorize "system-website" (env.baseUrl ++ r.RequestURI)],
              { w with session :=
                  env.redirToAuthorize sess "system-website" (env.baseUrl ++ r.RequestURI) }⟩
      else
        -- reset the counter
        let sess := { sess with RedirToAuthorizeCount := none }
        if env.sessionSaveErr then
          ⟨[.sessionGet, .sessionSave sess,
            .httpError 500 ("unable to save the session in WithAuthorization middleware: "
              ++ env.sessionSaveErrText)], w⟩
        else
          ⟨[.sessionGet, .sessionSave sess, .nextHandler r.ctxJwtInfo], { w with session := sess }⟩

/-! ## The step-up gate of the account handlers -/

/-- The opening block of the four account handlers (lines 20-29 and 51-60 of
handler_account_change_password.go, 20-29 and 90-99 of handler_account_otp.go):
`requiresAuth` and the `jwtInfo` read from the context; `none` when the unchecked
assertion `.(dtos.JwtInfo)` fails. -/
def stepUpGate (ctx : Option CtxVal) : Option (Bool × JwtInfo) :=
  match ctx with
  | none => some (true, JwtInfo.zero)
  | some (.jwtInfo jwtInfo) =>
    match jwtInfo.IdTokenAcrLevel with
    | some acrLevel =>
      if acrLevel = .AcrLevel2 ∨ acrLevel = .AcrLevel3 then some (false, jwtInfo)
      else some (true, jwtInfo)
    | none => some (true, jwtInfo)
  | some _ => none

/-- The branch `if requiresAuth { s.redirToAuthorize(w, r, "account-management",
r.RequestURI); return }`. -/
def stepUpRedirect (env : Env) (r : Request) (w : World) : Outcome :=
  ⟨[.redirToAuthorize "account-management" r.RequestURI],
    { w with session := env.redirToAuthorize w.session "account-management" r.RequestURI }⟩

/-! ## `handler_account_change_password.go` -/

/-- Template of the password page. -/
def changePasswordPage : String := "/account_change_password.html"

/-- `handleAccountChangePasswordGet`, lines 31-41: after the gate. -/
def changePasswordGetBody (env : Env) (w : World) : Outcome :=
  ⟨renderTemplate env changePasswordPage [("csrfField", .csrfField)], w⟩

/-- `handleAccountChangePasswordGet` (lines 13-44). -/
def handleAccountChangePasswordGet (env : Env) (r : Request) (w : World) : Outcome :=
  match stepUpGate r.ctxJwtInfo with
  | none => ⟨[.abort], w⟩
  | some (true, _) => stepUpRedirect env r w
  | some (false, _) => changePasswordGetBody env w

/-- `handleAccountChangePasswordPost`, lines 67-158: after the gate. -/
def changePasswordPostBody (env : Env) (r : Request) (jwtInfo : JwtInfo) (w : World) : Outcome :=
  let currentPassword := FormValue r "currentPassword"
  let newPassword := FormValue r "newPassword"
  let newPasswordConfirmation := FormValue r "newPasswordConfirmation"
  let renderError := fun (message : String) =>
    renderTemplate env changePasswordPage [("error", .str message), ("csrfField", .csrfField)]
  if len (TrimSpace currentPassword) = 0 then
    ⟨renderError "Current password is required.", w⟩
  else
    match jwtInfo.Subject with
    | none => ⟨[.internalServerError], w⟩
    | some sub =>
      if env.getUserErr then ⟨[.getUserBySubject sub, .internalServerError], w⟩
      else
        match GetUserBySubject w.db sub with
        | none => ⟨[.getUserBySubject sub, .abort], w⟩
        | some user =>
          if !env.VerifyPasswordHash user.PasswordHash currentPassword then
            ⟨.getUserBySubject sub ::
              renderError "Authentication failed. Check your current password and try again.", w⟩
          else if len (TrimSpace newPassword) = 0 then
            ⟨.getUserBySubject sub :: renderError "New password is required.", w⟩
          else if newPassword ≠ newPasswordConfirmation then
            ⟨.getUserBySubject sub ::
              renderError "The new password confirmation does not match the password.", w⟩
          else
            match env.ValidatePassword newPassword with
            | some msg => ⟨.getUserBySubject sub :: renderError msg, w⟩
            | none =>
              match env.HashPassword newPassword with
              | none => ⟨[.getUserBySubject sub, .internalServerError], w⟩
              | some passwordHash =>
                let user := { user with
                  PasswordHash := passwordHash
                  ForgotPasswordCodeEncrypted := none
                  ForgotPasswordCodeIssuedAt := none }
                if env.updateUserErr then
                  ⟨[.getUserBySubject sub, .updateUser user, .internalServerError], w⟩
                else
                  ⟨.getUserBySubject sub :: .updateUser user ::
                    renderTemplate env changePasswordPage
                      [("passwordChangedSuccessfully", .bool true), ("csrfField", .csrfField)],
                    { w with db := UpdateUser w.db user }⟩

/-- `handleAccountChangePasswordPost` (lines 46-160). -/
def handleAccountChangePasswordPost (env : Env) (r : Request) (w : World) : Outcome :=
  match stepUpGate r.ctxJwtInfo with
  | none => ⟨[.abort], w⟩
  | some (true, _) => stepUpRedirect env r w
  | some (false, jwtInfo) => changePasswordPostBody env r jwtInfo w

/-! ## `handler_account_otp.go` -/

/-- Template of the OTP page. -/
def otpPage : String := "/account_otp.html"

/-- `handleAccountOtpGet`, lines 31-81: after the gate. -/
def otpGetBody (env : Env) (r : Request) (jwtInfo : JwtInfo) (w : World) : Outcome :=
  match jwtInfo.Subject with
  | none => ⟨[.internalServerError], w⟩
  | some sub =>
    if env.getUserErr then ⟨[.getUserBySubject sub, .internalServerError], w⟩
    else
      match GetUserBySubject w.db sub with
      | none => ⟨[.getUserBySubject sub, .abort], w⟩
      | some user =>
        let bind : List (String × BindVal) :=
          [("otpEnabled", .bool user.OTPEnabled), ("csrfField", .csrfField)]
        if !user.OTPEnabled then
          -- generate secret
          match r.ctxSettings with
          | some .settings =>
            match env.GenerateOTPSecret user with
            | none => ⟨[.getUserBySubject sub, .generateOTPSecret user, .internalServerError], w⟩
            | some (base64Image, secretKey) =>
              let bind := bind ++ [("base64Image", .str base64Image), ("secretKey", .str secretKey)]
              if env.sessionGetErr then
                ⟨[.getUserBySubject sub, .generateOTPSecret user, .sessionGet,
                  .internalServerError], w⟩
              else
                -- save image and secret in the session state
                let sess := { w.session with
                  OTPSecret := some (.str secretKey)
                  OTPImage := some (.str base64Image) }
                if env.sessionSaveErr then
                  ⟨[.getUserBySubject sub, .generateOTPSecret user, .sessionGet,
                    .sessionSave sess, .internalServerError], w⟩
                else
                  ⟨[.getUserBySubject sub, .generateOTPSecret user, .sessionGet,
                    .sessionSave sess] ++ renderTemplate env otpPage bind,
                    { w with session := sess }⟩
          | _ => ⟨[.getUserBySubject sub, .abort], w⟩
        else
          ⟨.getUserBySubject sub :: renderTemplate env otpPage bind, w⟩

/-- `handleAccountOtpGet` (lines 15-84). -/
def handleAccountOtpGet (env : Env) (r : Request) (w : World) : Outcome :=
  match stepUpGate r.ctxJwtInfo with
  | none => ⟨[.abort], w⟩
  | some (true, _) => stepUpRedirect env r w
  | some (false, jwtInfo) => otpGetBody env r jwtInfo w

/-- Lines 168-174 of handler_account_otp.go, `if val, ok := sess.Values[k]; ok { x = val.(string) }`
starting from `x = ""`: `none` when the unchecked assertion fails. -/
def sessString (v : Option SessVal) : Option String :=
  match v with
  | none => some ""
  | some (.str s) => some s
  | some _ => none

/-- The constant `authFailedError` of `handleAccountOtpPost`. -/
def authFailedError : String := "Authentication failed. Check your password and try again."

/-- The message of `handleAccountOtpPost` for a code that does not validate. -/
def incorrectOtpError : String :=
  "Incorrect OTP Code. OTP codes are time-sensitive and change every 30 seconds. Make sure you\x27re using the most recent code generated by your authenticator app."

/-- The closure `renderError` of `handleAccountOtpPost` (lines 119-136). -/
def otpRenderError (env : Env) (user : User) (message base64Image secretKey : String) :
    List Event :=
  let bind : List (String × BindVal) :=
    [("error", .str message), ("otpEnabled", .bool user.OTPEnabled), ("csrfField", .csrfField)]
  let bind :=
    if len base64Image > 0 then
      bind ++ [("base64Image", .str base64Image), ("secretKey", .str secretKey)]
    else bind
  renderTemplate env otpPage bind

/-- `handleAccountOtpPost`, lines 106-212: after the gate. -/
def otpPostBody (env : Env) (r : Request) (jwtInfo : JwtInfo) (w : World) : Outcome :=
  match jwtInfo.Subject with
  | none => ⟨[.internalServerError], w⟩
  | some sub =>
    if env.getUserErr then ⟨[.getUserBySubject sub, .internalServerError], w⟩
    else
      match GetUserBySubject w.db sub with
      | none => ⟨[.getUserBySubject sub, .abort], w⟩
      | some user =>
        let password := FormValue r "password"
        if user.OTPEnabled then
          -- disable OTP
          if !env.VerifyPasswordHash user.PasswordHash password then
            ⟨.getUserBySubject sub :: otpRenderError env user authFailedError "" "", w⟩
          else
            let user := { user with OTPSecret := "", OTPEnabled := false }
            if env.updateUserErr then
              ⟨[.getUserBySubject sub, .updateUser user, .internalServerError], w⟩
            else
              ⟨[.getUserBySubject sub, .updateUser user, .redirect "/account/otp" 302],
                { w with db := UpdateUser w.db user }⟩
        else
          -- enable OTP
          if env.sessionGetErr then
            ⟨[.getUserBySubject sub, .sessionGet, .internalServerError], w⟩
          else
            match sessString w.session.OTPImage with
            | none => ⟨[.getUserBySubject sub, .sessionGet, .abort], w⟩
            | some base64Image =>
              match sessString w.session.OTPSecret with
              | none => ⟨[.getUserBySubject sub, .sessionGet, .abort], w⟩
              | some secretKey =>
                if !env.VerifyPasswordHash user.PasswordHash password then
                  ⟨.getUserBySubject sub :: .sessionGet ::
                    otpRenderError env user authFailedError base64Image secretKey, w⟩
                else
                  let otpCode := FormValue r "otp"
                  if len otpCode = 0 then
                    ⟨.getUserBySubject sub :: .sessionGet ::
                      otpRenderError env user "OTP code is required." base64Image secretKey, w⟩
                  else
                    let otpValid := env.totpValidate otpCode secretKey
                    if !otpValid then
                      ⟨.getUserBySubject sub :: .sessionGet ::
                        otpRenderError env user incorrectOtpError base64Image secretKey, w⟩
                    else
                      -- save OTP secret
                      let user := { user with OTPSecret := secretKey, OTPEnabled := true }
                      if env.updateUserErr then
                        ⟨[.getUserBySubject sub, .sessionGet, .updateUser user,
                          .internalServerError], w⟩
                      else
                        ⟨[.getUserBySubject sub, .sessionGet, .updateUser user,
                          .redirect "/account/otp" 302],
                          { w with db := UpdateUser w.db user }⟩

/-- `handleAccountOtpPost` (lines 86-214). -/
def handleAccountOtpPost (env : Env) (r : Request) (w : World) : Outcome :=
  match stepUpGate r.ctxJwtInfo with
  | none => ⟨[.abort], w⟩
  | some (true, _) => stepUpRedirect env r w
  | some (false, jwtInfo) => otpPostBody env r jwtInfo w

/-! ## Runs of requests through the middleware -/

/-- The middleware denies the request: the context value passes the assertion and
`isAuthorizedToAccessResource` answers false. -/
def denied (env : Env) (scopesAnyOf : List String) (r : Request) : Prop :=
  ∃ j, contextJwtInfo r.ctxJwtInfo = some j ∧ env.isAuthorizedToAccessResource j scopesAnyOf = false

/-- The middleware allows the request. -/
def allowed (env : Env) (scopesAnyOf : List String) (r : Request) : Prop :=
  ∃ j, contextJwtInfo r.ctxJwtInfo = some j ∧ env.isAuthorizedToAccessResource j scopesAnyOf = true

/-- An interactive request: not marked as `XMLHttpRequest`. -/
def interactive (r : Request) : Prop := r.xRequestedWith ≠ "XMLHttpRequest"

/-- Consecutive requests of one session through `MiddlewareRequiresScope`, each with the
scopes of its route: every request starts from the world the previous one left. -/
def serveAll (env : Env) (clientIdentifier : String) :
    List (List String × Request) → World → List Outcome
  | [], _ => []
  | (scopes, r) :: rest, w =>
    let o := MiddlewareRequiresScope env clientIdentifier scopes r w
    o :: serveAll env clientIdentifier rest o.world

/-- The answer is the redirect to the authorize endpoint with the given referrer. -/
def isRedirectTo (o : Outcome) (referrer : String) : Prop :=
  o.trace = [.sessionGet, .redirToAuthorize "system-website" referrer]

/-- The answer is the terminal unauthorized page, after saving a session without a retry
counter; no redirect is part of it. -/
def isTerminal (o : Outcome) : Prop :=
  ∃ v, o.trace = [.sessionGet, .sessionSave v, .unauthorizedPage] ∧
    v.RedirToAuthorizeCount = none ∧ o.world.session = v

/-- The session slot that stands for `k` denials counted so far (`k = 0`: no counter). -/
def counterOf (k : Nat) : Option SessVal :=
  if k = 0 then none else some (.int k)

/-- The context satisfies the step-up gate as the spec words it: an identity is present and
the ordinal of its assurance level is at least the required level 2. -/
def gateSatisfied (ctx : Option CtxVal) : Prop :=
  ∃ j l, ctx = some (.jwtInfo j) ∧ j.IdTokenAcrLevel = some l ∧ 2 ≤ l.ordinal

/-- The context leaves the step-up gate unsatisfied: the request is anonymous, or its
identity has no assurance level, or a level below 2. -/
def gateUnsatisfied (ctx : Option CtxVal) : Prop :=
  ctx = none ∨ ∃ j, ctx = some (.jwtInfo j) ∧ ∀ l, j.IdTokenAcrLevel = some l → l.ordinal < 2

/-! ## Sample data -/

/-- A sample environment: no collaborator fails; a password verifies against the hash
`"h:" ++ password`; the policy rejects passwords shorter than four bytes; the one-time code
that validates against a secret is the secret itself. -/
def sampleEnv : Env where
  baseUrl := "https://auth.example"
  isAuthorizedToAccessResource := fun j scopes => scopes.any (fun s => j.Scopes.contains s)
  redirToAuthorize := fun v _ referrer => { v with rest := [("referrer", .str referrer)] }
  sessionGetErr := false
  sessionSaveErr := false
  getUserErr := false
  updateUserErr := false
  renderErr := false
  VerifyPasswordHash := fun hash password => hash == "h:" ++ password
  HashPassword := fun password => some ("h:" ++ password)
  ValidatePassword := fun password =>
    if password.length < 4 then some "The minimum length for the password is 4 characters." else none
  GenerateOTPSecret := fun u => some ("img-" ++ u.Subject, "secret-" ++ u.Subject)
  totpValidate := fun code secret => code == secret
  sessionGetErrText := "session store unavailable"
  sessionSaveErrText := "session store unavailable"

/-- A sample user with the second factor disabled and a recovery code outstanding. -/
def sampleUser : User :=
  ⟨7, "alice", "h:old", "", false, some [1, 2, 3], some 1700000000⟩

/-- An empty session record. -/
def emptyValues : Values := ⟨none, none, none, none, []⟩

/-- A sample world: an empty session and the sample user. -/
def sampleWorld : World := ⟨emptyValues, [sampleUser]⟩

/-- An identity of the sample user at the given assurance level. -/
def sampleJwt (l : AcrLevel) : JwtInfo := ⟨some l, some "alice", ["account"]⟩

/-- A sample request carrying the identity `j` (if any) and the given form. -/
def sampleRequest (j : Option JwtInfo) (form : List (String × String)) : Request :=
  ⟨j.map CtxVal.jwtInfo, some .settings, "", "/account/otp", form⟩


/-- Three denied interactive requests of an anonymous browser. -/
def threeDenied : List (List String × Request) :=
  [(["admin"], sampleRequest none []), (["admin"], sampleRequest none []),
   (["admin"], sampleRequest none [])]

/-- The five preconditions of a password change in the words of the spec, for the stored
hash and the three submitted values. -/
def preconditionsHold (env : Env) (storedHash currentPassword newPassword confirmation : String) :
    Prop :=
  len (TrimSpace currentPassword) ≠ 0 ∧
  env.VerifyPasswordHash storedHash currentPassword = true ∧
  len (TrimSpace newPassword) ≠ 0 ∧
  newPassword = confirmation ∧
  env.ValidatePassword newPassword = none

/-- The rejection the spec prescribes for a password change: the message of the first
failing precondition in the order 1 to 5, `none` when all five hold. -/
def firstRejection (env : Env) (storedHash currentPassword newPassword confirmation : String) :
    Option String :=
  if len (TrimSpace currentPassword) = 0 then some "Current password is required."
  else if env.VerifyPasswordHash storedHash currentPassword = false then
    some "Authentication failed. Check your current password and try again."
  else if len (TrimSpace newPassword) = 0 then some "New password is required."
  else if newPassword ≠ confirmation then
    some "The new password confirmation does not match the password."
  else env.ValidatePassword newPassword

/-- A sample password-change form. -/
def passwordForm (current new confirmation : String) : List (String × String) :=
  [("currentPassword", current), ("newPassword", new), ("newPasswordConfirmation", confirmation)]

/-- The pages rendered in a trace, in order, each with what was bound. -/
def renders : List Event → List (String × List (String × BindVal))
  | [] => []
  | .renderTemplate page bind :: t => (page, bind) :: renders t
  | _ :: t => renders t

/-- A sample world in which the enrollment page has been viewed: the session holds the
pending secret and image of the sample user. -/
def pendingWorld : World :=
  ⟨{ emptyValues with OTPSecret := some (.str "secret-alice")
                      OTPImage := some (.str "img-alice") }, [sampleUser]⟩

/-- The sample user with the second factor enabled. -/
def enabledUser : User :=
  { sampleUser with OTPSecret := "secret-alice", OTPEnabled := true }

/-- A sample world whose user has the second factor enabled. -/
def enabledWorld : World := ⟨emptyValues, [enabledUser]⟩

/-! ## Deciding the predicates -/

instance (env : Env) (scopes : List String) (r : Request) : Decidable (denied env scopes r) :=
  decidable_of_iff
    ((contextJwtInfo r.ctxJwtInfo).any (fun j => !env.isAuthorizedToAccessResource j scopes) = true)
    (by unfold denied; cases contextJwtInfo r.ctxJwtInfo <;> simp)

instance (env : Env) (scopes : List String) (r : Request) : Decidable (allowed env scopes r) :=
  decidable_of_iff
    ((contextJwtInfo r.ctxJwtInfo).any (fun j => env.isAuthorizedToAccessResource j scopes) = true)
    (by unfold allowed; cases contextJwtInfo r.ctxJwtInfo <;> simp)

instance (r : Request) : Decidable (interactive r) := by
  unfold interactive; infer_instance

instance (ctx : Option CtxVal) : Decidable (gateSatisfied ctx) :=
  decidable_of_iff
    ((match ctx with
      | some (.jwtInfo j) =>
        (match j.IdTokenAcrLevel with
          | some l => decide (2 ≤ l.ordinal)
          | none => false)
      | _ => false) = true)
    (by
      unfold gateSatisfied
      rcases ctx with _ | (j | _ | _)
      · simp
      · rcases h : j.IdTokenAcrLevel with _ | l <;> simp [h]
      · simp
      · simp)

instance (ctx : Option CtxVal) : Decidable (gateUnsatisfied ctx) :=
  decidable_of_iff
    ((match ctx with
      | none => true
      | some (.jwtInfo j) =>
        (match j.IdTokenAcrLevel with
          | some l => decide (l.ordinal < 2)
          | none => true)
      | _ => false) = true)
    (by
      unfold gateUnsatisfied
      rcases ctx with _ | (j | _ | _)
      · simp
      · rcases h : j.IdTokenAcrLevel with _ | l <;> simp [h]
      · simp
      · simp)

instance (env : Env) (a b c d : String) : Decidable (preconditionsHold env a b c d) := by
  unfold preconditionsHold; infer_instance

instance (o : Outcome) (referrer : String) : Decidable (isRedirectTo o referrer) := by
  unfold isRedirectTo; infer_instance

/-! ## `MiddlewareJwtSessionToContext` -/

/-- `MiddlewareJwtSessionToContext` (middleware_jwt.go, lines 15-41). The token validator
is the parameter `tokenValidator` of the Go function: `ValidateJwtSignature` applied to the
token response of the session, `none` when it returns an error. The event `nextHandler`
records the value the context passed on holds under `ContextKeyJwtInfo`. -/
def MiddlewareJwtSessionToContext (env : Env)
    (ValidateJwtSignature : TokenResponse → Option JwtInfo) (r : Request) (w : World) :
    Outcome :=
  let ctx := r.ctxJwtInfo
  if env.sessionGetErr then
    ⟨[.sessionGet,
      .httpError 500 ("unable to get the session in JwtSessionToContext middleware: "
        ++ env.sessionGetErrText)], w⟩
  else
    match w.session.Jwt with
    | none => ⟨[.sessionGet, .nextHandler ctx], w⟩
    | some .nil => ⟨[.sessionGet, .nextHandler ctx], w⟩
    | some (.tokenResponse tokenResponse) =>
      match ValidateJwtSignature tokenResponse with
      | some jwtInfo => ⟨[.sessionGet, .nextHandler (some (.jwtInfo jwtInfo))], w⟩
      | none => ⟨[.sessionGet, .nextHandler ctx], w⟩
    | some _ =>
      ⟨[.sessionGet,
        .httpError 500 "unable to cast the session value to TokenResponse in JwtSessionToContext middleware"], w⟩

/-- The identity the spec prescribes for a session (section 4.1): the validator's claims
when the session holds a token and the validator accepts it, anonymous otherwise. -/
def resolveAuthContext (ValidateJwtSignature : TokenResponse → Option JwtInfo)
    (sess : Values) : Option JwtInfo :=
  match sess.Jwt with
  | some (.tokenResponse t) => ValidateJwtSignature t
  | _ => none

/-- The session holds no token value, or a token response. -/
def tokenWellTyped (sess : Values) : Prop :=
  sess.Jwt = none ∨ sess.Jwt = some .nil ∨ ∃ t, sess.Jwt = some (.tokenResponse t)

/-- The contexts handed to the next handler in a trace, in order. -/
def nextCalls : List Event → List (Option CtxVal)
  | [] => []
  | .nextHandler ctx :: t => ctx :: nextCalls t
  | _ :: t => nextCalls t

/-- The status code an event writes to the response, if it writes one (for
`jsonUnauthorized`, line 65 of middleware_jwt.go: `http.StatusUnauthorized`). -/
def Event.status : Event → Option Nat
  | .httpError s _ => some s
  | .jsonUnauthorized => some 401
  | .redirect _ s => some s
  | _ => none

/-- The content type and the body of the structured rejection (lines 64 and 66 of
middleware_jwt.go). -/
def Event.json : Event → Option (String × String)
  | .jsonUnauthorized => some ("application/json", "\x7b\"error\":\"unauthorized\"\x7d")
  | _ => none

/-- A sample token validator: it accepts the token whose access token is `"good"`. -/
def sampleValidator (t : TokenResponse) : Option JwtInfo :=
  if t.AccessToken = "good" then some (sampleJwt .AcrLevel2) else none

/-- A sample world whose session holds the given token. -/
def tokenWorld (t : TokenResponse) : World :=
  ⟨{ emptyValues with Jwt := some (.tokenResponse t) }, [sampleUser]⟩

/-- A sample machine-readable request of an anonymous browser. -/
def ajaxRequest : Request :=
  ⟨none, some .settings, "XMLHttpRequest", "/admin/clients", []⟩

/-! ## Further predicates and sample data -/

instance (sess : Values) : Decidable (tokenWellTyped sess) :=
  decidable_of_iff
    ((match sess.Jwt with
      | none => true
      | some .nil => true
      | some (.tokenResponse _) => true
      | some _ => false) = true)
    (by
      unfold tokenWellTyped
      rcases h : sess.Jwt with _ | (_ | _ | _ | _ | _) <;> simp)

/-- A sample world as an enrollment leaves it: the user has the second factor enabled and
the session still holds the secret and the image. -/
def enabledPendingWorld : World := ⟨pendingWorld.session, [enabledUser]⟩

/-- The number a session slot holds as retry counter, `none` when it holds no number. -/
def counterValue (v : Option SessVal) : Option Int :=
  match v with
  | some (.int n) => some n
  | _ => none

/-- Order of retry counters, an absent counter counting as the smallest value. -/
def counterLe (a b : Option SessVal) : Prop :=
  match counterValue a, counterValue b with
  | none, _ => True
  | some _, none => False
  | some x, some y => x ≤ y

instance (a b : Option SessVal) : Decidable (counterLe a b) := by
  unfold counterLe; split <;> infer_instance

/-- The retry counter a request leaves in the session. -/
def Outcome.counter (o : Outcome) : Option SessVal := o.world.session.RedirToAuthorizeCount


/-- The invariant of a credential record: the second-factor secret is non-empty only when
the enabled flag is set. -/
def secretOnlyWhenEnabled (u : User) : Prop := u.OTPSecret ≠ "" → u.OTPEnabled = true

instance (u : User) : Decidable (secretOnlyWhenEnabled u) := by
  unfold secretOnlyWhenEnabled; infer_instance

/-- Every record of the user table satisfies the invariant. -/
def dbInvariant (db : List User) : Prop := ∀ u ∈ db, secretOnlyWhenEnabled u

instance (db : List User) : Decidable (dbInvariant db) := by
  unfold dbInvariant; infer_instance

/-- A sample environment whose one-time-code engine derives the valid code from the secret
alone: the code for the secret `s` is `"otp:" ++ s`, also for the empty secret. -/
def derivingEnv : Env :=
  { sampleEnv with totpValidate := fun code secret => code == "otp:" ++ secret }

/-- A sample world whose session holds a number where the pending secret is expected. -/
def illTypedWorld : World :=
  ⟨{ emptyValues with OTPSecret := some (.int 5), OTPImage := some (.str "img-alice") },
    [sampleUser]⟩

/-- A sample environment whose generator returns a second pair. -/
def secondEnv : Env :=
  { sampleEnv with GenerateOTPSecret := fun u => some ("img2-" ++ u.Subject, "second-" ++ u.Subject) }

/-! ## `handler_admin_clients_manage_oauth2_flows.go` -/

/-- The client entity (`entities.Client`), restricted to the fields the handler reads or
writes. -/
structure Client where
  ID : Nat
  ClientIdentifier : String
  IsPublic : Bool
  AuthorizationCodeEnabled : Bool
  ClientCredentialsEnabled : Bool
  deriving DecidableEq, Repr

/-- The value `dtos.AdminClientOAuth2Flows` bound for the page (lines 133-139). -/
structure AdminClientOAuth2Flows where
  ClientID : Nat
  ClientIdentifier : String
  IsPublic : Bool
  AuthorizationCodeEnabled : Bool
  ClientCredentialsEnabled : Bool
  deriving DecidableEq, Repr

/-- One observable action of the admin handler, in the order performed. The message of
`internalServerError` is the text of the error the handler builds itself, empty for an
error returned by a collaborator. -/
inductive AdminEvent where
  | internalServerError (msg : String)
  | getClientById (id : Nat)
  | updateClient (c : Client)
  | sessionGet
  | sessionSave (v : Values)
  | renderTemplate (page : String) (client : AdminClientOAuth2Flows) (error : String)
  | redirect (url : String) (status : Nat)
  | abort
  deriving DecidableEq, Repr

/-- The persisted state the admin handler works on: the session record and the client
table. -/
structure AdminWorld where
  session : Values
  clients : List Client
  deriving DecidableEq, Repr

/-- What the admin handler did and what it left behind. -/
structure AdminOutcome where
  trace : List AdminEvent
  world : AdminWorld
  deriving DecidableEq, Repr

/-- The error flags of the two client calls of the database. -/
structure ClientStore where
  getClientErr : Bool
  updateClientErr : Bool
  deriving DecidableEq, Repr

/-- Go `strconv.ParseUint(s, 10, 64)`: a non-empty string of decimal digits whose value is
below `2 ^ 64`; `none` for a syntax or a range error. -/
def ParseUint (s : String) : Option Nat :=
  if s.toList ≠ [] ∧ s.toList.all Char.isDigit = true then
    let n := s.toList.foldl (fun a c => 10 * a + (c.toNat - 48)) 0
    if n < 2 ^ 64 then some n else none
  else none

/-- Modelled from the spec: the database package is not among the sources. The client with
this identifier, `none` (a nil pointer without error) when there is none. -/
def GetClientById (clients : List Client) (id : Nat) : Option Client :=
  clients.find? (fun c => c.ID == id)

/-- Modelled from the spec: the database package is not among the sources. The stored
client of the same identifier is replaced. -/
def UpdateClient (clients : List Client) (c : Client) : List Client :=
  clients.map (fun x => if x.ID = c.ID then c else x)

/-- Gorilla `sess.AddFlash(value, key)`: one more flash entry under the key, kept among the
remaining entries of the session. -/
def AddFlash (v : Values) (value key : String) : Values :=
  { v with rest := v.rest ++ [(key, .str value)] }

/-- Template of the OAuth2-flows page. -/
def oauth2FlowsPage : String := "/admin_clients_oauth2_flows.html"

/-- The message rendered by the POST for a caller without the admin scope (line 155). -/
def sessionExpiredError : String :=
  "Your authentication session has expired. To continue, please reload the page and re-authenticate to start a new session."

/-- `handleAdminClientManageOAuth2Post` (lines 92-185). `clientID` is
`chi.URLParam(r, "clientID")`. -/
def handleAdminClientManageOAuth2Post (env : Env) (store : ClientStore) (r : Request)
    (clientID : String) (w : AdminWorld) : AdminOutcome :=
  let allowedScopes := ["authserver:admin-website"]
  -- lines 97-100: the unchecked assertion of the context value
  match contextJwtInfo r.ctxJwtInfo with
  | none => ⟨[.abort], w⟩
  | some jwtInfo =>
    let idStr := clientID
    if len idStr = 0 then ⟨[.internalServerError "clientID is required"], w⟩
    else
      match ParseUint idStr with
      | none => ⟨[.internalServerError ""], w⟩
      | some id =>
        if store.getClientErr then ⟨[.getClientById id, .internalServerError ""], w⟩
        else
          match GetClientById w.clients id with
          | none => ⟨[.getClientById id, .internalServerError "client not found"], w⟩
          | some client =>
            let authCodeEnabled := if FormValue r "authCodeEnabled" = "on" then true else false
            let clientCredentialsEnabled :=
              if FormValue r "clientCredentialsEnabled" = "on" then true else false
            let adminClientOAuth2Flows : AdminClientOAuth2Flows :=
              { ClientID := client.ID
                ClientIdentifier := client.ClientIdentifier
                IsPublic := client.IsPublic
                AuthorizationCodeEnabled := client.AuthorizationCodeEnabled
                ClientCredentialsEnabled := client.ClientCredentialsEnabled }
            let renderError := fun (message : String) =>
              if env.renderErr then
                [AdminEvent.renderTemplate oauth2FlowsPage adminClientOAuth2Flows message,
                 AdminEvent.internalServerError ""]
              else [AdminEvent.renderTemplate oauth2FlowsPage adminClientOAuth2Flows message]
            if !env.isAuthorizedToAccessResource jwtInfo allowedScopes then
              ⟨.getClientById id :: renderError sessionExpiredError, w⟩
            else
              let client := { client with
                AuthorizationCodeEnabled := authCodeEnabled
                ClientCredentialsEnabled := clientCredentialsEnabled }
              let client :=
                if client.IsPublic then { client with ClientCredentialsEnabled := false }
                else client
              if store.updateClientErr then
                ⟨[.getClientById id, .updateClient client, .internalServerError ""], w⟩
              else
                let w := { w with clients := UpdateClient w.clients client }
                if env.sessionGetErr then
                  ⟨[.getClientById id, .updateClient client, .sessionGet,
                    .internalServerError ""], w⟩
                else
                  let sess := AddFlash w.session "true" "clientOAuth2FlowsSavedSuccessfully"
                  if env.sessionSaveErr then
                    ⟨[.getClientById id, .updateClient client, .sessionGet, .sessionSave sess,
                      .internalServerError ""], w⟩
                  else
                    ⟨[.getClientById id, .updateClient client, .sessionGet, .sessionSave sess,
                      .redirect (env.baseUrl ++ "/admin/clients/" ++ toString client.ID
                        ++ "/oauth2-flows") 302],
                      { w with session := sess }⟩

/-- The clients written by the `UpdateClient` calls of a trace, in order. -/
def clientUpdates : List AdminEvent → List Client
  | [] => []
  | .updateClient c :: t => c :: clientUpdates t
  | _ :: t => clientUpdates t

/-- A sample public client with both flows enabled in the table. -/
def publicClient : Client := ⟨3, "spa", true, true, true⟩

/-- A sample confidential client. -/
def confidentialClient : Client := ⟨4, "backend", false, false, false⟩

/-- A sample admin world. -/
def adminWorld : AdminWorld := ⟨emptyValues, [publicClient, confidentialClient]⟩

/-- A sample client store that does not fail. -/
def sampleStore : ClientStore := ⟨false, false⟩

/-- An identity holding the admin scope. -/
def adminJwt : JwtInfo := ⟨some .AcrLevel2, some "root", ["authserver:admin-website"]⟩

/-- A sample POST of the flows form with both boxes ticked. -/
def flowsRequest (j : Option JwtInfo) : Request :=
  ⟨j.map CtxVal.jwtInfo, some .settings, "", "/admin/clients/3/oauth2-flows",
    [("authCodeEnabled", "on"), ("clientCredentialsEnabled", "on")]⟩
/-- The record the POST writes for the client found and the submitted form (lines
159-163). -/
def flowsRecord (r : Request) (found : Client) : Client :=
  { found with
    AuthorizationCodeEnabled := decide (FormValue r "authCodeEnabled" = "on")
    ClientCredentialsEnabled :=
      !found.IsPublic && decide (FormValue r "clientCredentialsEnabled" = "on") }

/-- The two enrollment slots of a session hold strings or nothing, as the writes of the
OTP GET handler (lines 69-70) leave them. -/
def slotsTyped (v : Values) : Prop :=
  (∃ base64Image, sessString v.OTPImage = some base64Image) ∧
  (∃ secretKey, sessString v.OTPSecret = some secretKey)

instance (v : Values) : Decidable (slotsTyped v) :=
  decidable_of_iff
    (((sessString v.OTPImage).isSome && (sessString v.OTPSecret).isSome) = true)
    (by
      unfold slotsTyped
      cases sessString v.OTPImage <;> cases sessString v.OTPSecret <;> simp)

/-- The event writes a response to the client: a page, the fatal page, a redirect or an
error status. -/
def isResponse : Event → Bool
  | .renderTemplate _ _ => true
  | .internalServerError => true
  | .redirect _ _ => true
  | .redirToAuthorize _ _ => true
  | .httpError _ _ => true
  | .jsonUnauthorized => true
  | .unauthorizedPage => true
  | _ => false

/-! # Theorems -/

/-- One denied interactive request from a counter that stands for `k < 3` denials. -/
theorem deny_step (env : Env) (c : String) (scopes : List String) (r : Request) (w : World)
    (k : Nat) (hk : k < 3)
    (hget : env.sessionGetErr = false) (hsave : env.sessionSaveErr = false)
    (hredir : ∀ v c u, (env.redirToAuthorize v c u).RedirToAuthorizeCount = v.RedirToAuthorizeCount)
    (hd : denied env scopes r) (hi : interactive r)
    (hc : w.session.RedirToAuthorizeCount = counterOf k) :
    (MiddlewareRequiresScope env c scopes r w).world.session.RedirToAuthorizeCount
        = counterOf ((k + 1) % 3) ∧
    (if k = 2 then isTerminal (MiddlewareRequiresScope env c scopes r w)
     else isRedirectTo (MiddlewareRequiresScope env c scopes r w) (env.baseUrl ++ r.RequestURI)) := by
  obtain ⟨j, hj, hauth⟩ := hd
  unfold interactive at hi
  have h3 : k = 0 ∨ k = 1 ∨ k = 2 := by omega
  rcases h3 with rfl | rfl | rfl
  · simp [MiddlewareRequiresScope, hj, hauth, hi, hget, hc, counterOf, isRedirectTo, hredir]
  · simp [MiddlewareRequiresScope, hj, hauth, hi, hget, hc, counterOf, isRedirectTo, hredir, incInt]
  · simp [MiddlewareRequiresScope, hj, hauth, hi, hget, hsave, hc, counterOf, isTerminal, incInt]

/-- A run answers every request. -/
theorem serveAll_length (env : Env) (c : String) (rs : List (List String × Request)) :
    ∀ w, (serveAll env c rs w).length = rs.length := by
  induction rs with
  | nil => intro w; rfl
  | cons hd tl ih => intro w; simp [serveAll, ih]

/-- The answers of a run of denials that starts after `k` counted denials. -/
theorem serveAll_denials (env : Env) (c : String)
    (hget : env.sessionGetErr = false) (hsave : env.sessionSaveErr = false)
    (hredir : ∀ v c u, (env.redirToAuthorize v c u).RedirToAuthorizeCount = v.RedirToAuthorizeCount)
    (rs : List (List String × Request)) :
    ∀ (w : World) (k : Nat), k < 3 →
      (∀ p ∈ rs, denied env p.1 p.2 ∧ interactive p.2) →
      w.session.RedirToAuthorizeCount = counterOf k →
      ∀ (i : Nat) (p : List String × Request) (o : Outcome),
        rs[i]? = some p → (serveAll env c rs w)[i]? = some o →
        (if (k + i) % 3 = 2 then isTerminal o
         else isRedirectTo o (env.baseUrl ++ p.2.RequestURI)) := by
  induction rs with
  | nil => intro w k _ _ _ i p o hp; simp at hp
  | cons hd tl ih =>
    intro w k hk hall hc i p o hp ho
    obtain ⟨scopes, r⟩ := hd
    have hhd := hall (scopes, r) (List.mem_cons_self _ _)
    have hstep := deny_step env c scopes r w k hk hget hsave hredir hhd.1 hhd.2 hc
    cases i with
    | zero =>
      simp [serveAll] at hp ho
      subst hp; subst ho
      have h3 : k = 0 ∨ k = 1 ∨ k = 2 := by omega
      rcases h3 with rfl | rfl | rfl <;> simpa using hstep.2
    | succ n =>
      simp [serveAll] at hp ho
      have := ih (MiddlewareRequiresScope env c scopes r w).world ((k + 1) % 3)
        (Nat.mod_lt _ (by decide)) (fun q hq => hall q (List.mem_cons_of_mem _ hq)) hstep.1
        n p o hp ho
      have e : ((k + 1) % 3 + n) % 3 = (k + (n + 1)) % 3 := by omega
      rw [e] at this
      exact this

/-- C1: from a session without retry counter, in every run of consecutive denied
interactive requests through `MiddlewareRequiresScope` (session store working), the
denials number 1 and 2 of each group of three are answered with the redirect to the
authorize endpoint and denial number 3 with the terminal unauthorized page; so no three
consecutive denials are all answered with a redirect. -/
theorem redirect_breaker_bounded (env : Env) (c : String)
    (rs : List (List String × Request)) (w : World)
    (hget : env.sessionGetErr = false) (hsave : env.sessionSaveErr = false)
    (hredir : ∀ v c u, (env.redirToAuthorize v c u).RedirToAuthorizeCount = v.RedirToAuthorizeCount)
    (hall : ∀ p ∈ rs, denied env p.1 p.2 ∧ interactive p.2)
    (h0 : w.session.RedirToAuthorizeCount = none) :
    (serveAll env c rs w).length = rs.length ∧
    ∀ (i : Nat) (p : List String × Request), rs[i]? = some p →
      ∃ o, (serveAll env c rs w)[i]? = some o ∧
        (if (i + 1) % 3 = 0 then isTerminal o
         else isRedirectTo o (env.baseUrl ++ p.2.RequestURI)) := by
  refine ⟨serveAll_length env c rs w, ?_⟩
  intro i p hp
  have hi : i < (serveAll env c rs w).length := by
    rw [serveAll_length]
    exact (List.getElem?_eq_some.mp hp).1
  refine ⟨(serveAll env c rs w)[i], List.getElem?_eq_getElem hi, ?_⟩
  have := serveAll_denials env c hget hsave hredir rs w 0 (by decide) hall
    (by simpa [counterOf] using h0) i p _ hp (List.getElem?_eq_getElem hi)
  rw [Nat.zero_add] at this
  by_cases h : (i + 1) % 3 = 0
  · have h2 : i % 3 = 2 := by omega
    rw [if_pos h]; rw [if_pos h2] at this; exact this
  · have h2 : ¬ i % 3 = 2 := by omega
    rw [if_neg h]; rw [if_neg h2] at this; exact this

/-- C1 at three denials of an anonymous browser: the third one is answered with the terminal
unauthorized page. -/
theorem redirect_breaker_bounded_witness :
    sampleWorld.session.RedirToAuthorizeCount = none ∧
    ∃ o, (serveAll sampleEnv "system-website" threeDenied sampleWorld)[2]? = some o ∧
      isTerminal o := by
  refine ⟨rfl, ?_⟩
  have h := (redirect_breaker_bounded sampleEnv "system-website" threeDenied sampleWorld rfl rfl
    (fun _ _ _ => rfl)
    (by
      intro p hp
      simp only [threeDenied, List.mem_cons, List.mem_singleton, List.not_mem_nil, or_false,
        or_self] at hp
      subst hp
      exact ⟨⟨JwtInfo.zero, rfl, by decide⟩, by unfold interactive; decide⟩)
    rfl).2 2 (["admin"], sampleRequest none []) rfl
  simpa using h

/-- C2: one interactive request through `MiddlewareRequiresScope` (session store working)
moves the retry counter as the transition function of the spec: on a denial, absent
becomes 1 and 1 becomes 2, each with the redirect, and 2 becomes absent with the terminal
unauthorized page and no redirect; on an allow, whatever the counter holds, it becomes
absent and the next handler is invoked. -/
theorem requiresScope_transition (env : Env) (c : String) (scopes : List String) (r : Request)
    (w : World) (hi : interactive r)
    (hget : env.sessionGetErr = false) (hsave : env.sessionSaveErr = false)
    (hredir : ∀ v c u, (env.redirToAuthorize v c u).RedirToAuthorizeCount = v.RedirToAuthorizeCount) :
    (denied env scopes r →
      (w.session.RedirToAuthorizeCount = none →
        isRedirectTo (MiddlewareRequiresScope env c scopes r w) (env.baseUrl ++ r.RequestURI) ∧
        (MiddlewareRequiresScope env c scopes r w).world.session.RedirToAuthorizeCount
          = some (.int 1)) ∧
      (w.session.RedirToAuthorizeCount = some (.int 1) →
        isRedirectTo (MiddlewareRequiresScope env c scopes r w) (env.baseUrl ++ r.RequestURI) ∧
        (MiddlewareRequiresScope env c scopes r w).world.session.RedirToAuthorizeCount
          = some (.int 2)) ∧
      (w.session.RedirToAuthorizeCount = some (.int 2) →
        (MiddlewareRequiresScope env c scopes r w).trace
          = [.sessionGet, .sessionSave { w.session with RedirToAuthorizeCount := none },
             .unauthorizedPage] ∧
        (MiddlewareRequiresScope env c scopes r w).world.session
          = { w.session with RedirToAuthorizeCount := none } ∧
        ∀ a b, Event.redirToAuthorize a b ∉ (MiddlewareRequiresScope env c scopes r w).trace)) ∧
    (allowed env scopes r →
      (MiddlewareRequiresScope env c scopes r w).trace
        = [.sessionGet, .sessionSave { w.session with RedirToAuthorizeCount := none },
           .nextHandler r.ctxJwtInfo] ∧
      (MiddlewareRequiresScope env c scopes r w).world.session
        = { w.session with RedirToAuthorizeCount := none }) := by
  unfold interactive at hi
  refine ⟨fun hd => ?_, fun ha => ?_⟩
  · obtain ⟨j, hj, hauth⟩ := hd
    refine ⟨fun hc => ?_, fun hc => ?_, fun hc => ?_⟩
    · simp [MiddlewareRequiresScope, hj, hauth, hi, hget, hc, isRedirectTo, hredir]
    · simp [MiddlewareRequiresScope, hj, hauth, hi, hget, hc, isRedirectTo, hredir, incInt]
    · simp [MiddlewareRequiresScope, hj, hauth, hi, hget, hsave, hc, incInt]
  · obtain ⟨j, hj, hauth⟩ := ha
    simp [MiddlewareRequiresScope, hj, hauth, hi, hget, hsave]

/-- When the opening block of an account handler lets the request through. -/
theorem stepUpGate_false_iff (ctx : Option CtxVal) (j : JwtInfo) :
    stepUpGate ctx = some (false, j) ↔
      ctx = some (.jwtInfo j) ∧ ∃ l, j.IdTokenAcrLevel = some l ∧ 2 ≤ l.ordinal := by
  unfold stepUpGate
  rcases ctx with _ | (⟨a, b, c⟩ | _ | _)
  · simp
  · rcases a with _ | (_ | _ | _) <;> simp [AcrLevel.ordinal] <;> 
      (intro h; subst h; simp)
  · simp
  · simp

/-- C2 at the first denial of an anonymous browser. -/
theorem requiresScope_transition_witness :
    isRedirectTo (MiddlewareRequiresScope sampleEnv "system-website" ["admin"]
        (sampleRequest none []) sampleWorld) "https://auth.example/account/otp" ∧
    (MiddlewareRequiresScope sampleEnv "system-website" ["admin"]
        (sampleRequest none []) sampleWorld).world.session.RedirToAuthorizeCount
      = some (.int 1) :=
  ((requiresScope_transition sampleEnv "system-website" ["admin"] (sampleRequest none [])
    sampleWorld (by unfold interactive; decide) rfl rfl (fun _ _ _ => rfl)).1
    ⟨JwtInfo.zero, rfl, by decide⟩).1 rfl

/-- A satisfying context passes the opening block with its identity. -/
theorem stepUpGate_of_satisfied (ctx : Option CtxVal) (h : gateSatisfied ctx) :
    ∃ j, ctx = some (.jwtInfo j) ∧ stepUpGate ctx = some (false, j) := by
  obtain ⟨j, l, hc, hl, ho⟩ := h
  exact ⟨j, hc, (stepUpGate_false_iff ctx j).mpr ⟨hc, l, hl, ho⟩⟩

/-- An unsatisfying context makes the opening block ask for authentication. -/
theorem stepUpGate_of_unsatisfied (ctx : Option CtxVal) (h : gateUnsatisfied ctx) :
    ∃ j, stepUpGate ctx = some (true, j) := by
  rcases h with rfl | ⟨j, rfl, hl⟩
  · exact ⟨JwtInfo.zero, rfl⟩
  · refine ⟨j, ?_⟩
    unfold stepUpGate
    rcases hj : j.IdTokenAcrLevel with _ | (_ | _ | _)
    · simp [hj]
    · simp [hj]
    · have := hl _ hj; simp [AcrLevel.ordinal] at this
    · have := hl _ hj; simp [AcrLevel.ordinal] at this

/-- Past the gate, the password-change POST never calls `redirToAuthorize`. -/
theorem changePasswordPostBody_no_redirect (env : Env) (r : Request) (j : JwtInfo) (w : World)
    (a b : String) : Event.redirToAuthorize a b ∉ (changePasswordPostBody env r j w).trace := by
  unfold changePasswordPostBody
  simp only [renderTemplate]
  repeat' split
  all_goals simp

/-- Past the gate, the OTP GET never calls `redirToAuthorize`. -/
theorem otpGetBody_no_redirect (env : Env) (r : Request) (j : JwtInfo) (w : World)
    (a b : String) : Event.redirToAuthorize a b ∉ (otpGetBody env r j w).trace := by
  unfold otpGetBody
  simp only [renderTemplate]
  repeat' split
  all_goals simp

/-- Past the gate, the OTP POST never calls `redirToAuthorize`. -/
theorem otpPostBody_no_redirect (env : Env) (r : Request) (j : JwtInfo) (w : World)
    (a b : String) : Event.redirToAuthorize a b ∉ (otpPostBody env r j w).trace := by
  unfold otpPostBody
  simp only [otpRenderError, renderTemplate]
  repeat' split
  all_goals simp

/-- Past the gate, the password-change GET never calls `redirToAuthorize`. -/
theorem changePasswordGetBody_no_redirect (env : Env) (w : World)
    (a b : String) : Event.redirToAuthorize a b ∉ (changePasswordGetBody env w).trace := by
  unfold changePasswordGetBody
  simp only [renderTemplate]
  repeat' split
  all_goals simp

/-- C3: in each of the four gated account handlers the step-up gate lets the request
through if and only if an identity is present in the request context and the ordinal of
its ID-token assurance level is at least 2, that is the level is 2 or 3; then the handler
runs its body and never redirects to re-authentication, and otherwise (anonymous, no
ACR claim, level 1) the handler is the re-authentication redirect. Anonymous, no level and
level 1 never satisfy; level 2 satisfies. -/
theorem step_up_gate_iff (env : Env) (r : Request) (w : World) :
    ((∃ j, stepUpGate r.ctxJwtInfo = some (false, j)) ↔ gateSatisfied r.ctxJwtInfo) ∧
    (gateSatisfied r.ctxJwtInfo ↔
      ∃ j, r.ctxJwtInfo = some (.jwtInfo j) ∧
        (j.IdTokenAcrLevel = some .AcrLevel2 ∨ j.IdTokenAcrLevel = some .AcrLevel3)) ∧
    (gateSatisfied r.ctxJwtInfo →
      ∃ j, r.ctxJwtInfo = some (.jwtInfo j) ∧
        handleAccountChangePasswordGet env r w = changePasswordGetBody env w ∧
        handleAccountChangePasswordPost env r w = changePasswordPostBody env r j w ∧
        handleAccountOtpGet env r w = otpGetBody env r j w ∧
        handleAccountOtpPost env r w = otpPostBody env r j w ∧
        ∀ a b,
          Event.redirToAuthorize a b ∉ (handleAccountChangePasswordGet env r w).trace ∧
          Event.redirToAuthorize a b ∉ (handleAccountChangePasswordPost env r w).trace ∧
          Event.redirToAuthorize a b ∉ (handleAccountOtpGet env r w).trace ∧
          Event.redirToAuthorize a b ∉ (handleAccountOtpPost env r w).trace) ∧
    (gateUnsatisfied r.ctxJwtInfo →
      handleAccountChangePasswordGet env r w = stepUpRedirect env r w ∧
      handleAccountChangePasswordPost env r w = stepUpRedirect env r w ∧
      handleAccountOtpGet env r w = stepUpRedirect env r w ∧
      handleAccountOtpPost env r w = stepUpRedirect env r w) ∧
    ¬ gateSatisfied none ∧
    (∀ j, j.IdTokenAcrLevel = none → ¬ gateSatisfied (some (.jwtInfo j))) ∧
    (∀ j, j.IdTokenAcrLevel = some .AcrLevel1 → ¬ gateSatisfied (some (.jwtInfo j))) ∧
    (∀ j, j.IdTokenAcrLevel = some .AcrLevel2 → gateSatisfied (some (.jwtInfo j))) := by
  refine ⟨⟨?_, ?_⟩, ⟨?_, ?_⟩, ?_, ?_, ?_, ?_, ?_, ?_⟩
  · rintro ⟨j, hj⟩
    obtain ⟨hc, l, hl, ho⟩ := (stepUpGate_false_iff _ j).mp hj
    exact ⟨j, l, hc, hl, ho⟩
  · intro h
    obtain ⟨j, _, hj⟩ := stepUpGate_of_satisfied _ h
    exact ⟨j, hj⟩
  · rintro ⟨j, l, hc, hl, ho⟩
    refine ⟨j, hc, ?_⟩
    cases l
    · simp [AcrLevel.ordinal] at ho
    · exact Or.inl hl
    · exact Or.inr hl
  · rintro ⟨j, hc, h | h⟩
    · exact ⟨j, _, hc, h, by decide⟩
    · exact ⟨j, _, hc, h, by decide⟩
  · intro h
    obtain ⟨j, hc, hj⟩ := stepUpGate_of_satisfied _ h
    have e1 : handleAccountChangePasswordGet env r w = changePasswordGetBody env w := by
      simp [handleAccountChangePasswordGet, hj]
    have e2 : handleAccountChangePasswordPost env r w = changePasswordPostBody env r j w := by
      simp [handleAccountChangePasswordPost, hj]
    have e3 : handleAccountOtpGet env r w = otpGetBody env r j w := by
      simp [handleAccountOtpGet, hj]
    have e4 : handleAccountOtpPost env r w = otpPostBody env r j w := by
      simp [handleAccountOtpPost, hj]
    refine ⟨j, hc, e1, e2, e3, e4, fun a b => ?_⟩
    rw [e1, e2, e3, e4]
    exact ⟨changePasswordGetBody_no_redirect env w a b,
      changePasswordPostBody_no_redirect env r j w a b,
      otpGetBody_no_redirect env r j w a b, otpPostBody_no_redirect env r j w a b⟩
  · intro h
    obtain ⟨j, hj⟩ := stepUpGate_of_unsatisfied _ h
    simp [handleAccountChangePasswordGet, handleAccountChangePasswordPost,
      handleAccountOtpGet, handleAccountOtpPost, hj]
  · rintro ⟨j, l, hc, _⟩
    simp at hc
  · rintro j hj ⟨j2, l, hc, hl, _⟩
    simp at hc; subst hc; simp [hj] at hl
  · rintro j hj ⟨j2, l, hc, hl, ho⟩
    simp at hc; subst hc; simp [hj] at hl; subst hl; simp [AcrLevel.ordinal] at ho
  · intro j hj
    exact ⟨j, _, rfl, hj, by decide⟩

/-- C4: when the step-up gate is unsatisfied, each of the four gated account handlers does
one thing only, the call of `redirToAuthorize` with the original request URI as return
URL: no user lookup, no user update, no secret generation, no session save and no page
render; the user table is unchanged and the session is what `redirToAuthorize` leaves. -/
theorem unsatisfied_gate_only_redirects (env : Env) (r : Request) (w : World)
    (h : gateUnsatisfied r.ctxJwtInfo) :
    ∀ o ∈ [handleAccountChangePasswordGet env r w, handleAccountChangePasswordPost env r w,
        handleAccountOtpGet env r w, handleAccountOtpPost env r w],
      o.trace = [.redirToAuthorize "account-management" r.RequestURI] ∧
      o.world.db = w.db ∧
      o.world.session = env.redirToAuthorize w.session "account-management" r.RequestURI ∧
      (∀ s, Event.getUserBySubject s ∉ o.trace) ∧
      (∀ u, Event.updateUser u ∉ o.trace) ∧
      (∀ u, Event.generateOTPSecret u ∉ o.trace) ∧
      (∀ v, Event.sessionSave v ∉ o.trace) ∧
      (∀ p b, Event.renderTemplate p b ∉ o.trace) := by
  obtain ⟨j, hj⟩ := stepUpGate_of_unsatisfied _ h
  intro o ho
  have : o = stepUpRedirect env r w := by
    simp only [List.mem_cons, List.mem_singleton, List.not_mem_nil, or_false] at ho
    rcases ho with rfl | rfl | rfl | rfl <;>
      simp [handleAccountChangePasswordGet, handleAccountChangePasswordPost,
        handleAccountOtpGet, handleAccountOtpPost, hj]
  subst this
  simp [stepUpRedirect]

/-- C3 at an identity of level 2 posting to the OTP handler: the gate is satisfied. -/
theorem step_up_gate_iff_witness :
    gateSatisfied (sampleRequest (some (sampleJwt .AcrLevel2)) []).ctxJwtInfo ∧
    ¬ gateSatisfied none :=
  ⟨(step_up_gate_iff sampleEnv (sampleRequest (some (sampleJwt .AcrLevel2)) [])
      sampleWorld).2.2.2.2.2.2.2 (sampleJwt .AcrLevel2) rfl,
   (step_up_gate_iff sampleEnv (sampleRequest (some (sampleJwt .AcrLevel2)) [])
      sampleWorld).2.2.2.2.1⟩

/-- C4 at an identity of level 1 posting to the OTP handler. -/
theorem unsatisfied_gate_only_redirects_witness :
    gateUnsatisfied (sampleRequest (some (sampleJwt .AcrLevel1)) []).ctxJwtInfo ∧
    (handleAccountOtpPost sampleEnv (sampleRequest (some (sampleJwt .AcrLevel1)) [])
      sampleWorld).trace = [.redirToAuthorize "account-management" "/account/otp"] :=
  have h : gateUnsatisfied (sampleRequest (some (sampleJwt .AcrLevel1)) []).ctxJwtInfo :=
    Or.inr ⟨sampleJwt .AcrLevel1, rfl, by
      intro l hl
      have e : l = .AcrLevel1 := by
        simp only [sampleJwt, Option.some.injEq] at hl
        exact hl.symm
      subst e
      decide⟩
  ⟨h, (unsatisfied_gate_only_redirects sampleEnv (sampleRequest (some (sampleJwt .AcrLevel1)) [])
    sampleWorld h _ (by simp)).1⟩

/-- C5: a password-change POST that passes the step-up gate and in which at least one of
the five preconditions fails issues no user update and leaves the world as it was, so the
password hash, the recovery code and its timestamp keep their values. -/
theorem changePassword_failure_keeps_record (env : Env) (r : Request) (w : World) (j : JwtInfo)
    (hctx : r.ctxJwtInfo = some (.jwtInfo j)) (hgate : gateSatisfied r.ctxJwtInfo)
    (hfail : ∀ sub user, j.Subject = some sub → GetUserBySubject w.db sub = some user →
      ¬ preconditionsHold env user.PasswordHash (FormValue r "currentPassword")
        (FormValue r "newPassword") (FormValue r "newPasswordConfirmation")) :
    updates (handleAccountChangePasswordPost env r w).trace = [] ∧
    (∀ u, Event.updateUser u ∉ (handleAccountChangePasswordPost env r w).trace) ∧
    (handleAccountChangePasswordPost env r w).world = w := by
  obtain ⟨j2, hc2, hj⟩ := stepUpGate_of_satisfied _ hgate
  have : j2 = j := by rw [hctx] at hc2; simpa using hc2.symm
  subst this
  simp only [handleAccountChangePasswordPost, hj, changePasswordPostBody, renderTemplate]
  unfold preconditionsHold at hfail
  repeat' split
  all_goals first
    | (simp [updates]; done)
    | (exfalso
       exact hfail _ _ (by assumption) (by assumption)
         ⟨by assumption, by simp_all, by assumption, by simp_all, by assumption⟩)

/-- C6: in a password-change POST that passes the step-up gate (subject and user lookup
succeeding) exactly one page is rendered when a precondition fails, and its rejection is
the one of the first failing precondition in the order: current password non-empty after
trimming, current password verifies, new password non-empty after trimming, new password
equals its confirmation, policy validator. A current-password mismatch is reported whatever
the new password and the confirmation are. -/
theorem changePassword_first_failure_wins (env : Env) (r : Request) (w : World) (j : JwtInfo)
    (sub : String) (user : User)
    (hctx : r.ctxJwtInfo = some (.jwtInfo j)) (hgate : gateSatisfied r.ctxJwtInfo)
    (hsub : j.Subject = some sub) (hget : env.getUserErr = false)
    (huser : GetUserBySubject w.db sub = some user) :
    (∀ m, firstRejection env user.PasswordHash (FormValue r "currentPassword")
          (FormValue r "newPassword") (FormValue r "newPasswordConfirmation") = some m →
      rejections (handleAccountChangePasswordPost env r w).trace = [m] ∧
      renders (handleAccountChangePasswordPost env r w).trace
        = [(changePasswordPage, [("error", .str m), ("csrfField", .csrfField)])]) ∧
    (len (TrimSpace (FormValue r "currentPassword")) ≠ 0 →
      env.VerifyPasswordHash user.PasswordHash (FormValue r "currentPassword") = false →
      rejections (handleAccountChangePasswordPost env r w).trace
        = ["Authentication failed. Check your current password and try again."]) := by
  obtain ⟨j2, hc2, hj⟩ := stepUpGate_of_satisfied _ hgate
  have : j2 = j := by rw [hctx] at hc2; simpa using hc2.symm
  subst this
  have key : ∀ m, firstRejection env user.PasswordHash (FormValue r "currentPassword")
          (FormValue r "newPassword") (FormValue r "newPasswordConfirmation") = some m →
      rejections (handleAccountChangePasswordPost env r w).trace = [m] ∧
      renders (handleAccountChangePasswordPost env r w).trace
        = [(changePasswordPage, [("error", .str m), ("csrfField", .csrfField)])] := by
    intro m hm
    simp only [handleAccountChangePasswordPost, hj, changePasswordPostBody, renderTemplate,
      hsub, hget, huser]
    unfold firstRejection at hm
    generalize FormValue r "newPassword" = new at hm ⊢
    generalize FormValue r "newPasswordConfirmation" = conf at hm ⊢
    by_cases h1 : len (TrimSpace (FormValue r "currentPassword")) = 0
    · simp [h1] at hm
      subst hm
      by_cases hr : env.renderErr = true <;> simp [h1, hr, rejections, renders]
    · cases h2 : env.VerifyPasswordHash user.PasswordHash (FormValue r "currentPassword")
      · simp [h1, h2] at hm
        subst hm
        by_cases hr : env.renderErr = true <;> simp [h1, h2, hr, rejections, renders]
      · by_cases h3 : len (TrimSpace new) = 0
        · simp [h1, h2, h3] at hm
          subst hm
          by_cases hr : env.renderErr = true <;> simp [h1, h2, h3, hr, rejections, renders]
        · by_cases h4 : new = conf
          · subst h4
            simp [h1, h2, h3] at hm
            by_cases hr : env.renderErr = true <;>
              simp [h1, h2, h3, hm, hr, rejections, renders]
          · simp [h1, h2, h3, h4] at hm
            subst hm
            by_cases hr : env.renderErr = true <;>
              simp [h1, h2, h3, h4, hr, rejections, renders]
  refine ⟨key, fun h1 h2 => (key _ ?_).1⟩
  simp [firstRejection, h1, h2]

/-- C7: in a password-change POST in which the five preconditions hold and hashing
succeeds, exactly one user update is issued; the record it writes has the hash of the
submitted new password as password hash and neither recovery code nor issuance timestamp,
whatever they were before, and it is this record that the user table holds afterwards
when the update succeeds. -/
theorem changePassword_success_single_update (env : Env) (r : Request) (w : World) (j : JwtInfo)
    (sub : String) (user : User) (passwordHash : String)
    (hctx : r.ctxJwtInfo = some (.jwtInfo j)) (hgate : gateSatisfied r.ctxJwtInfo)
    (hsub : j.Subject = some sub) (hget : env.getUserErr = false)
    (huser : GetUserBySubject w.db sub = some user)
    (hpre : preconditionsHold env user.PasswordHash (FormValue r "currentPassword")
      (FormValue r "newPassword") (FormValue r "newPasswordConfirmation"))
    (hhash : env.HashPassword (FormValue r "newPassword") = some passwordHash) :
    updates (handleAccountChangePasswordPost env r w).trace
      = [{ user with PasswordHash := passwordHash
                     ForgotPasswordCodeEncrypted := none
                     ForgotPasswordCodeIssuedAt := none }] ∧
    (env.updateUserErr = false →
      (handleAccountChangePasswordPost env r w).world.db
        = UpdateUser w.db { user with PasswordHash := passwordHash
                                      ForgotPasswordCodeEncrypted := none
                                      ForgotPasswordCodeIssuedAt := none }) ∧
    (handleAccountChangePasswordPost env r w).world.session = w.session := by
  obtain ⟨j2, hc2, hj⟩ := stepUpGate_of_satisfied _ hgate
  have : j2 = j := by rw [hctx] at hc2; simpa using hc2.symm
  subst this
  obtain ⟨h1, h2, h3, h4, h5⟩ := hpre
  simp only [handleAccountChangePasswordPost, hj, changePasswordPostBody, renderTemplate,
    hsub, hget, huser]
  generalize FormValue r "newPassword" = new at h3 h4 h5 hhash ⊢
  generalize FormValue r "newPasswordConfirmation" = conf at h4 ⊢
  subst h4
  by_cases hu : env.updateUserErr = true <;> by_cases hr : env.renderErr = true <;>
    simp [h1, h2, h3, h5, hhash, hu, hr, updates]

/-- C5 at a wrong current password: nothing is written. -/
theorem changePassword_failure_keeps_record_witness :
    (handleAccountChangePasswordPost sampleEnv
      (sampleRequest (some (sampleJwt .AcrLevel2)) (passwordForm "wrong" "newpw" "newpw"))
      sampleWorld).world = sampleWorld :=
  (changePassword_failure_keeps_record sampleEnv
    (sampleRequest (some (sampleJwt .AcrLevel2)) (passwordForm "wrong" "newpw" "newpw"))
    sampleWorld (sampleJwt .AcrLevel2) rfl ⟨_, _, rfl, rfl, by decide⟩
    (by
      intro sub user hs hu h
      have e1 : sub = "alice" := by
        simp only [sampleJwt, Option.some.injEq] at hs
        exact hs.symm
      subst e1
      have e2 : user = sampleUser := by
        have : GetUserBySubject sampleWorld.db "alice" = some sampleUser := by decide
        rw [this] at hu
        exact (Option.some.inj hu).symm
      subst e2
      exact absurd h.2.1 (by decide))).2.2

/-- C6 at a wrong current password with an empty new password: the mismatch is reported. -/
theorem changePassword_first_failure_wins_witness :
    rejections (handleAccountChangePasswordPost sampleEnv
      (sampleRequest (some (sampleJwt .AcrLevel2)) (passwordForm "wrong" "" "x"))
      sampleWorld).trace
      = ["Authentication failed. Check your current password and try again."] :=
  (changePassword_first_failure_wins sampleEnv
    (sampleRequest (some (sampleJwt .AcrLevel2)) (passwordForm "wrong" "" "x"))
    sampleWorld (sampleJwt .AcrLevel2) "alice" sampleUser rfl ⟨_, _, rfl, rfl, by decide⟩
    rfl rfl (by decide)).2 (by decide) (by decide)

/-- C7 at a correct change: one update, with the new hash and no recovery code. -/
theorem changePassword_success_single_update_witness :
    updates (handleAccountChangePasswordPost sampleEnv
      (sampleRequest (some (sampleJwt .AcrLevel2)) (passwordForm "old" "newpw" "newpw"))
      sampleWorld).trace
      = [⟨7, "alice", "h:newpw", "", false, none, none⟩] :=
  (changePassword_success_single_update sampleEnv
    (sampleRequest (some (sampleJwt .AcrLevel2)) (passwordForm "old" "newpw" "newpw"))
    sampleWorld (sampleJwt .AcrLevel2) "alice" sampleUser "h:newpw" rfl
    ⟨_, _, rfl, rfl, by decide⟩ rfl rfl (by decide)
    ⟨by decide, by decide, by decide, by decide, by decide⟩ (by decide)).1

/-- C8: in an OTP POST that passes the step-up gate on a user whose second factor is
disabled (user lookup and session read succeeding, `secretKey` being the pending secret
read from the session), a user update is issued if and only if the submitted password
verifies against the stored hash, the submitted code is non-empty and the code validates
against the pending secret; the record written then has that pending secret as OTP secret
and the enabled flag set, and otherwise the world is unchanged. The checks are made in the
order password, code present, code valid: each rejection is the one of the first failing
check. -/
theorem otpEnable_iff (env : Env) (r : Request) (w : World) (j : JwtInfo)
    (sub : String) (user : User) (base64Image secretKey : String)
    (hctx : r.ctxJwtInfo = some (.jwtInfo j)) (hgate : gateSatisfied r.ctxJwtInfo)
    (hsub : j.Subject = some sub) (hget : env.getUserErr = false)
    (huser : GetUserBySubject w.db sub = some user) (hdis : user.OTPEnabled = false)
    (hsget : env.sessionGetErr = false)
    (himg : sessString w.session.OTPImage = some base64Image)
    (hsec : sessString w.session.OTPSecret = some secretKey) :
    ((∃ u, Event.updateUser u ∈ (handleAccountOtpPost env r w).trace) ↔
      env.VerifyPasswordHash user.PasswordHash (FormValue r "password") = true ∧
      len (FormValue r "otp") ≠ 0 ∧
      env.totpValidate (FormValue r "otp") secretKey = true) ∧
    (env.VerifyPasswordHash user.PasswordHash (FormValue r "password") = true →
      len (FormValue r "otp") ≠ 0 →
      env.totpValidate (FormValue r "otp") secretKey = true →
      updates (handleAccountOtpPost env r w).trace
        = [{ user with OTPSecret := secretKey, OTPEnabled := true }] ∧
      (env.updateUserErr = false →
        (handleAccountOtpPost env r w).world.db
          = UpdateUser w.db { user with OTPSecret := secretKey, OTPEnabled := true })) ∧
    (¬ (env.VerifyPasswordHash user.PasswordHash (FormValue r "password") = true ∧
        len (FormValue r "otp") ≠ 0 ∧
        env.totpValidate (FormValue r "otp") secretKey = true) →
      (handleAccountOtpPost env r w).world = w) ∧
    (env.VerifyPasswordHash user.PasswordHash (FormValue r "password") = false →
      rejections (handleAccountOtpPost env r w).trace = [authFailedError]) ∧
    (env.VerifyPasswordHash user.PasswordHash (FormValue r "password") = true →
      len (FormValue r "otp") = 0 →
      rejections (handleAccountOtpPost env r w).trace = ["OTP code is required."]) ∧
    (env.VerifyPasswordHash user.PasswordHash (FormValue r "password") = true →
      len (FormValue r "otp") ≠ 0 →
      env.totpValidate (FormValue r "otp") secretKey = false →
      rejections (handleAccountOtpPost env r w).trace = [incorrectOtpError]) := by
  obtain ⟨j2, hc2, hj⟩ := stepUpGate_of_satisfied _ hgate
  have : j2 = j := by rw [hctx] at hc2; simpa using hc2.symm
  subst this
  simp only [handleAccountOtpPost, hj, otpPostBody, otpRenderError, renderTemplate,
    hsub, hget, huser, hdis, hsget, himg, hsec]
  cases h1 : env.VerifyPasswordHash user.PasswordHash (FormValue r "password") <;>
  by_cases h2 : len (FormValue r "otp") = 0 <;>
  cases h3 : env.totpValidate (FormValue r "otp") secretKey <;>
  by_cases hu : env.updateUserErr = true <;>
  by_cases hr : env.renderErr = true <;>
  by_cases hl : len base64Image > 0 <;>
  simp [h2, hu, hr, hl, updates, rejections]

/-- C9: in an OTP POST that passes the step-up gate on a user whose second factor is
enabled, a password that verifies against the stored hash suffices to disable: one update
is issued, of the record with the OTP secret cleared and the enabled flag false. The
session is neither read nor changed, and neither the submitted code nor the session
content has any influence on the trace or on the user table. -/
theorem otpDisable_needs_only_password (env : Env) (r : Request) (w : World) (j : JwtInfo)
    (sub : String) (user : User)
    (hctx : r.ctxJwtInfo = some (.jwtInfo j)) (hgate : gateSatisfied r.ctxJwtInfo)
    (hsub : j.Subject = some sub) (hget : env.getUserErr = false)
    (huser : GetUserBySubject w.db sub = some user) (hen : user.OTPEnabled = true)
    (hpw : env.VerifyPasswordHash user.PasswordHash (FormValue r "password") = true) :
    updates (handleAccountOtpPost env r w).trace
      = [{ user with OTPSecret := "", OTPEnabled := false }] ∧
    (env.updateUserErr = false →
      (handleAccountOtpPost env r w).trace
        = [.getUserBySubject sub, .updateUser { user with OTPSecret := "", OTPEnabled := false },
           .redirect "/account/otp" 302] ∧
      (handleAccountOtpPost env r w).world.db
        = UpdateUser w.db { user with OTPSecret := "", OTPEnabled := false }) ∧
    Event.sessionGet ∉ (handleAccountOtpPost env r w).trace ∧
    (handleAccountOtpPost env r w).world.session = w.session ∧
    (∀ (r2 : Request) (w2 : World), r2.ctxJwtInfo = r.ctxJwtInfo →
      FormValue r2 "password" = FormValue r "password" → w2.db = w.db →
      (handleAccountOtpPost env r2 w2).trace = (handleAccountOtpPost env r w).trace ∧
      (handleAccountOtpPost env r2 w2).world.db = (handleAccountOtpPost env r w).world.db) := by
  obtain ⟨j2, hc2, hj⟩ := stepUpGate_of_satisfied _ hgate
  have : j2 = j := by rw [hctx] at hc2; simpa using hc2.symm
  subst this
  have body : ∀ (r2 : Request) (w2 : World), r2.ctxJwtInfo = r.ctxJwtInfo →
      FormValue r2 "password" = FormValue r "password" → w2.db = w.db →
      handleAccountOtpPost env r2 w2 =
        if env.updateUserErr = true then
          ⟨[.getUserBySubject sub, .updateUser { user with OTPSecret := "", OTPEnabled := false },
            .internalServerError], w2⟩
        else
          ⟨[.getUserBySubject sub, .updateUser { user with OTPSecret := "", OTPEnabled := false },
            .redirect "/account/otp" 302],
            { w2 with db := UpdateUser w.db { user with OTPSecret := "", OTPEnabled := false } }⟩ := by
    intro r2 w2 e1 e2 e3
    simp only [handleAccountOtpPost, e1, hj, otpPostBody, hsub, hget, e2, e3, huser, hen, hpw]
    simp
  have b0 := body r w rfl rfl rfl
  refine ⟨?_, ?_, ?_, ?_, ?_⟩
  · rw [b0]; by_cases hu : env.updateUserErr = true <;> simp [hu, updates]
  · intro hu; rw [b0]; simp [hu]
  · rw [b0]; by_cases hu : env.updateUserErr = true <;> simp [hu]
  · rw [b0]; by_cases hu : env.updateUserErr = true <;> simp [hu]
  · intro r2 w2 e1 e2 e3
    rw [b0, body r2 w2 e1 e2 e3]
    by_cases hu : env.updateUserErr = true <;> simp [hu]
    all_goals simp_all

/-- The OTP GET never writes a user record. -/
theorem otpGet_never_updates (env : Env) (r : Request) (w : World) :
    updates (handleAccountOtpGet env r w).trace = [] ∧
    (handleAccountOtpGet env r w).world.db = w.db := by
  simp only [handleAccountOtpGet, stepUpRedirect, otpGetBody, renderTemplate]
  repeat' split
  all_goals simp [updates]

/-- C10: in an OTP GET that passes the step-up gate, for a user whose second factor is
disabled the secret and the image returned by the generator are written to the session,
replacing whatever pending pair it held (collaborators not failing), and no user update
is ever issued; for a user whose second factor is enabled nothing is generated, the
session is not saved and the world is unchanged. -/
theorem otpGet_enrollment (env : Env) (r : Request) (w : World) (j : JwtInfo)
    (sub : String) (user : User)
    (hctx : r.ctxJwtInfo = some (.jwtInfo j)) (hgate : gateSatisfied r.ctxJwtInfo)
    (hsub : j.Subject = some sub) (hget : env.getUserErr = false)
    (huser : GetUserBySubject w.db sub = some user) :
    (user.OTPEnabled = false → r.ctxSettings = some .settings →
      env.sessionGetErr = false → env.sessionSaveErr = false →
      ∀ base64Image secretKey, env.GenerateOTPSecret user = some (base64Image, secretKey) →
        (handleAccountOtpGet env r w).trace
          = [.getUserBySubject sub, .generateOTPSecret user, .sessionGet,
             .sessionSave { w.session with OTPSecret := some (.str secretKey)
                                           OTPImage := some (.str base64Image) }]
            ++ renderTemplate env otpPage
                [("otpEnabled", .bool false), ("csrfField", .csrfField),
                 ("base64Image", .str base64Image), ("secretKey", .str secretKey)] ∧
        (handleAccountOtpGet env r w).world.session
          = { w.session with OTPSecret := some (.str secretKey)
                             OTPImage := some (.str base64Image) }) ∧
    (updates (handleAccountOtpGet env r w).trace = [] ∧
      (handleAccountOtpGet env r w).world.db = w.db) ∧
    (user.OTPEnabled = true →
      (handleAccountOtpGet env r w).trace
        = .getUserBySubject sub :: renderTemplate env otpPage
            [("otpEnabled", .bool true), ("csrfField", .csrfField)] ∧
      (∀ u, Event.generateOTPSecret u ∉ (handleAccountOtpGet env r w).trace) ∧
      (∀ v, Event.sessionSave v ∉ (handleAccountOtpGet env r w).trace) ∧
      (handleAccountOtpGet env r w).world = w) := by
  obtain ⟨j2, hc2, hj⟩ := stepUpGate_of_satisfied _ hgate
  have : j2 = j := by rw [hctx] at hc2; simpa using hc2.symm
  subst this
  refine ⟨?_, otpGet_never_updates env r w, ?_⟩
  · intro hdis hset hsg hss img sec hgen
    simp [handleAccountOtpGet, hj, otpGetBody, hsub, hget, huser, hdis, hset, hsg, hss, hgen]
  · intro hen
    simp only [handleAccountOtpGet, hj, otpGetBody, hsub, hget, huser, hen, renderTemplate]
    by_cases hr : env.renderErr = true <;> simp [hr]

/-- C8 at a correct password and the code of the pending secret: the secret is persisted
and the factor enabled. -/
theorem otpEnable_iff_witness :
    updates (handleAccountOtpPost sampleEnv
      (sampleRequest (some (sampleJwt .AcrLevel2)) [("password", "old"), ("otp", "secret-alice")])
      pendingWorld).trace
      = [⟨7, "alice", "h:old", "secret-alice", true, some [1, 2, 3], some 1700000000⟩] :=
  ((otpEnable_iff sampleEnv
    (sampleRequest (some (sampleJwt .AcrLevel2)) [("password", "old"), ("otp", "secret-alice")])
    pendingWorld (sampleJwt .AcrLevel2) "alice" sampleUser "img-alice" "secret-alice" rfl
    ⟨_, _, rfl, rfl, by decide⟩ rfl rfl (by decide) rfl rfl rfl rfl).2.1
    (by decide) (by decide) (by decide)).1

/-- C9 at a correct password and no code: the factor is disabled and the secret cleared. -/
theorem otpDisable_needs_only_password_witness :
    updates (handleAccountOtpPost sampleEnv
      (sampleRequest (some (sampleJwt .AcrLevel2)) [("password", "old")]) enabledWorld).trace
      = [⟨7, "alice", "h:old", "", false, some [1, 2, 3], some 1700000000⟩] :=
  (otpDisable_needs_only_password sampleEnv
    (sampleRequest (some (sampleJwt .AcrLevel2)) [("password", "old")]) enabledWorld
    (sampleJwt .AcrLevel2) "alice" enabledUser rfl ⟨_, _, rfl, rfl, by decide⟩ rfl rfl
    (by decide) rfl (by decide)).1

/-- C10 at a first view of the enrollment page: the generated pair is in the session. -/
theorem otpGet_enrollment_witness :
    (handleAccountOtpGet sampleEnv (sampleRequest (some (sampleJwt .AcrLevel3)) [])
      sampleWorld).world.session
      = ⟨none, none, some (.str "secret-alice"), some (.str "img-alice"), []⟩ :=
  ((otpGet_enrollment sampleEnv (sampleRequest (some (sampleJwt .AcrLevel3)) []) sampleWorld
    (sampleJwt .AcrLevel3) "alice" sampleUser rfl ⟨_, _, rfl, rfl, by decide⟩ rfl rfl
    (by decide)).1 rfl rfl rfl rfl "img-alice" "secret-alice" (by decide)).2

/-- C11: for a request whose session is fetched and whose stored token value, if any, is a
token response, `MiddlewareJwtSessionToContext` invokes the next handler exactly once and
leaves the session as it was. The identity it passes on is the validator's result when the
session holds a token that the validator accepts, and the context of the incoming request
otherwise; so, for a request that arrives without identity, the context passed on carries
an identity if and only if the session holds a token and the validator accepts it, and a
rejected token lets the request proceed as anonymous. -/
theorem jwtSessionToContext_resolves (env : Env)
    (ValidateJwtSignature : TokenResponse → Option JwtInfo) (r : Request) (w : World)
    (hget : env.sessionGetErr = false) (hty : tokenWellTyped w.session) :
    (MiddlewareJwtSessionToContext env ValidateJwtSignature r w).trace
      = [.sessionGet,
         .nextHandler (match resolveAuthContext ValidateJwtSignature w.session with
                        | some j => some (.jwtInfo j)
                        | none => r.ctxJwtInfo)] ∧
    (nextCalls (MiddlewareJwtSessionToContext env ValidateJwtSignature r w).trace).length = 1 ∧
    (MiddlewareJwtSessionToContext env ValidateJwtSignature r w).world = w ∧
    (∀ v, Event.sessionSave v ∉ (MiddlewareJwtSessionToContext env ValidateJwtSignature r w).trace) ∧
    (r.ctxJwtInfo = none →
      ∀ ctx, nextCalls (MiddlewareJwtSessionToContext env ValidateJwtSignature r w).trace = [ctx] →
        ((∃ j, ctx = some (.jwtInfo j)) ↔
          ∃ t j, w.session.Jwt = some (.tokenResponse t) ∧ ValidateJwtSignature t = some j) ∧
        (∀ t j, w.session.Jwt = some (.tokenResponse t) → ValidateJwtSignature t = some j →
          ctx = some (.jwtInfo j)) ∧
        (∀ t, w.session.Jwt = some (.tokenResponse t) → ValidateJwtSignature t = none →
          ctx = none)) := by
  have htr : MiddlewareJwtSessionToContext env ValidateJwtSignature r w
      = ⟨[.sessionGet,
          .nextHandler (match resolveAuthContext ValidateJwtSignature w.session with
                        | some j => some (.jwtInfo j)
                        | none => r.ctxJwtInfo)], w⟩ := by
    rcases hty with h | h | ⟨t, h⟩
    · simp [MiddlewareJwtSessionToContext, hget, h, resolveAuthContext]
    · simp [MiddlewareJwtSessionToContext, hget, h, resolveAuthContext]
    · cases hv : ValidateJwtSignature t <;>
        simp [MiddlewareJwtSessionToContext, hget, h, hv, resolveAuthContext]
  rw [htr]
  refine ⟨rfl, by simp [nextCalls], rfl, by simp, ?_⟩
  intro hc ctx hctx
  simp only [nextCalls, List.cons.injEq, and_true] at hctx
  subst hctx
  rcases hty with h | h | ⟨t, h⟩
  · simp [resolveAuthContext, h, hc]
  · simp [resolveAuthContext, h, hc]
  · cases hv : ValidateJwtSignature t with
    | none =>
      simp [resolveAuthContext, h, hv, hc]
      intro t2 j e; subst e; simp [hv]
    | some j0 =>
      simp [resolveAuthContext, h, hv, hc]
      intro t2 j e hj; subst e; rw [hv] at hj; exact Option.some.inj hj

/-- C12: a machine-readable request (`X-Requested-With: XMLHttpRequest`) that
`MiddlewareRequiresScope` denies is answered at once with the structured rejection, status
401 and a JSON unauthorized body: no redirect, no call of the next handler, no session read
and no session write; the world, retry counter included, is unchanged. -/
theorem ajax_denial_rejects_at_once (env : Env) (c : String) (scopes : List String)
    (r : Request) (w : World)
    (hx : r.xRequestedWith = "XMLHttpRequest") (hd : denied env scopes r) :
    (MiddlewareRequiresScope env c scopes r w).trace = [.jsonUnauthorized] ∧
    Event.jsonUnauthorized.status = some 401 ∧
    Event.jsonUnauthorized.json
      = some ("application/json", "\x7b\"error\":\"unauthorized\"\x7d") ∧
    (∀ a b, Event.redirToAuthorize a b ∉ (MiddlewareRequiresScope env c scopes r w).trace) ∧
    (∀ u s, Event.redirect u s ∉ (MiddlewareRequiresScope env c scopes r w).trace) ∧
    nextCalls (MiddlewareRequiresScope env c scopes r w).trace = [] ∧
    Event.sessionGet ∉ (MiddlewareRequiresScope env c scopes r w).trace ∧
    (∀ v, Event.sessionSave v ∉ (MiddlewareRequiresScope env c scopes r w).trace) ∧
    (MiddlewareRequiresScope env c scopes r w).world = w := by
  obtain ⟨j, hj, hauth⟩ := hd
  simp [MiddlewareRequiresScope, hj, hauth, hx, nextCalls, Event.status, Event.json]

/-- C11 at a session whose token the validator accepts. -/
theorem jwtSessionToContext_resolves_witness :
    (MiddlewareJwtSessionToContext sampleEnv sampleValidator (sampleRequest none [])
      (tokenWorld ⟨"good", "id", "refresh"⟩)).trace
      = [.sessionGet, .nextHandler (some (.jwtInfo (sampleJwt .AcrLevel2)))] :=
  (jwtSessionToContext_resolves sampleEnv sampleValidator (sampleRequest none [])
    (tokenWorld ⟨"good", "id", "refresh"⟩) rfl (Or.inr (Or.inr ⟨_, rfl⟩))).1

/-- C12 at a machine-readable request of an anonymous browser. -/
theorem ajax_denial_rejects_at_once_witness :
    denied sampleEnv ["admin"] ajaxRequest ∧
    (MiddlewareRequiresScope sampleEnv "system-website" ["admin"] ajaxRequest sampleWorld).trace
      = [.jsonUnauthorized] :=
  ⟨by decide,
   (ajax_denial_rejects_at_once sampleEnv "system-website" ["admin"] ajaxRequest sampleWorld
    rfl (by decide)).1⟩

/-- C13, counterexample: an enabled user whose session still holds an image and a secret
posts a wrong password; the page is rendered with the rejection alone, neither the image
nor the secret of the session is bound. -/
theorem otp_wrong_password_enabled_counterexample :
    gateSatisfied (sampleRequest (some (sampleJwt .AcrLevel2)) [("password", "wrong")]).ctxJwtInfo ∧
    GetUserBySubject enabledPendingWorld.db "alice" = some enabledUser ∧
    sampleEnv.VerifyPasswordHash enabledUser.PasswordHash "wrong" = false ∧
    enabledPendingWorld.session.OTPImage = some (.str "img-alice") ∧
    enabledPendingWorld.session.OTPSecret = some (.str "secret-alice") ∧
    renders (handleAccountOtpPost sampleEnv
        (sampleRequest (some (sampleJwt .AcrLevel2)) [("password", "wrong")])
        enabledPendingWorld).trace
      = [(otpPage, [("error", .str authFailedError), ("otpEnabled", .bool true),
                    ("csrfField", .csrfField)])] ∧
    ∀ p ∈ renders (handleAccountOtpPost sampleEnv
        (sampleRequest (some (sampleJwt .AcrLevel2)) [("password", "wrong")])
        enabledPendingWorld).trace,
      ("base64Image", BindVal.str "img-alice") ∉ p.2 ∧
      ("secretKey", BindVal.str "secret-alice") ∉ p.2 := by
  decide

/-- C13, amended: an OTP POST that passes the step-up gate and whose password fails
verification issues no user update and leaves the world, session included, as it was. In
the disabled state (session read succeeding, session values strings) the page is rendered
once, with the authentication-failed rejection together with the image and the secret read
from the session when the image is non-empty; in the enabled state it is rendered once with
the authentication-failed rejection alone and the session is not read. -/
theorem otp_wrong_password_rerenders (env : Env) (r : Request) (w : World) (j : JwtInfo)
    (sub : String) (user : User)
    (hctx : r.ctxJwtInfo = some (.jwtInfo j)) (hgate : gateSatisfied r.ctxJwtInfo)
    (hsub : j.Subject = some sub) (hget : env.getUserErr = false)
    (huser : GetUserBySubject w.db sub = some user)
    (hpw : env.VerifyPasswordHash user.PasswordHash (FormValue r "password") = false) :
    updates (handleAccountOtpPost env r w).trace = [] ∧
    (handleAccountOtpPost env r w).world = w ∧
    (∀ v, Event.sessionSave v ∉ (handleAccountOtpPost env r w).trace) ∧
    (user.OTPEnabled = true →
      Event.sessionGet ∉ (handleAccountOtpPost env r w).trace ∧
      renders (handleAccountOtpPost env r w).trace
        = [(otpPage, [("error", .str authFailedError), ("otpEnabled", .bool true),
                      ("csrfField", .csrfField)])]) ∧
    (user.OTPEnabled = false → env.sessionGetErr = false →
      ∀ base64Image secretKey, sessString w.session.OTPImage = some base64Image →
        sessString w.session.OTPSecret = some secretKey →
        renders (handleAccountOtpPost env r w).trace
          = [(otpPage,
              [("error", .str authFailedError), ("otpEnabled", .bool false),
               ("csrfField", .csrfField)] ++
              (if len base64Image > 0 then
                [("base64Image", .str base64Image), ("secretKey", .str secretKey)]
               else []))]) := by
  obtain ⟨j2, hc2, hj⟩ := stepUpGate_of_satisfied _ hgate
  have : j2 = j := by rw [hctx] at hc2; simpa using hc2.symm
  subst this
  simp only [handleAccountOtpPost, hj, otpPostBody, otpRenderError, renderTemplate,
    hsub, hget, huser, hpw]
  cases hen : user.OTPEnabled
  · by_cases hsg : env.sessionGetErr = true
    · simp [hsg, updates]
    · rcases himg : sessString w.session.OTPImage with _ | img
      · simp [hsg, updates]
      · rcases hsec : sessString w.session.OTPSecret with _ | sec
        · simp [hsg, updates]
        · by_cases hr : env.renderErr = true <;> by_cases hl : len img > 0 <;>
            simp [hsg, hr, hl, updates, renders] <;> omega
  · have hz : ¬ len "" > 0 := by decide
    by_cases hr : env.renderErr = true <;> simp [hr, updates, renders, hz]

/-- C13 at a wrong password of a disabled user whose session holds a pending pair: the page
shows the rejection with the pending image and secret. -/
theorem otp_wrong_password_rerenders_witness :
    renders (handleAccountOtpPost sampleEnv
        (sampleRequest (some (sampleJwt .AcrLevel2)) [("password", "wrong")]) pendingWorld).trace
      = [(otpPage, [("error", .str authFailedError), ("otpEnabled", .bool false),
                    ("csrfField", .csrfField), ("base64Image", .str "img-alice"),
                    ("secretKey", .str "secret-alice")])] :=
  (otp_wrong_password_rerenders sampleEnv
    (sampleRequest (some (sampleJwt .AcrLevel2)) [("password", "wrong")]) pendingWorld
    (sampleJwt .AcrLevel2) "alice" sampleUser rfl (by decide) rfl rfl (by decide)
    (by decide)).2.2.2.2 rfl rfl "img-alice" "secret-alice" rfl rfl

/-- C14, counterexample: after a POST that enables the second factor the session still
holds the pending secret and the pending image. -/
theorem otp_enable_keeps_session_counterexample :
    updates (handleAccountOtpPost sampleEnv
      (sampleRequest (some (sampleJwt .AcrLevel2)) [("password", "old"), ("otp", "secret-alice")])
      pendingWorld).trace
      = [⟨7, "alice", "h:old", "secret-alice", true, some [1, 2, 3], some 1700000000⟩] ∧
    (handleAccountOtpPost sampleEnv
      (sampleRequest (some (sampleJwt .AcrLevel2)) [("password", "old"), ("otp", "secret-alice")])
      pendingWorld).world.db
      = [⟨7, "alice", "h:old", "secret-alice", true, some [1, 2, 3], some 1700000000⟩] ∧
    (handleAccountOtpPost sampleEnv
      (sampleRequest (some (sampleJwt .AcrLevel2)) [("password", "old"), ("otp", "secret-alice")])
      pendingWorld).world.session.OTPSecret = some (.str "secret-alice") ∧
    (handleAccountOtpPost sampleEnv
      (sampleRequest (some (sampleJwt .AcrLevel2)) [("password", "old"), ("otp", "secret-alice")])
      pendingWorld).world.session.OTPImage = some (.str "img-alice") := by
  decide

/-- C14, amended: an OTP POST that enables the second factor writes the user record and
redirects; it never saves the session, which is left exactly as it was, so the secret and
the image stay in it. -/
theorem otp_enable_leaves_session (env : Env) (r : Request) (w : World) (j : JwtInfo)
    (sub : String) (user : User) (base64Image secretKey : String)
    (hctx : r.ctxJwtInfo = some (.jwtInfo j)) (hgate : gateSatisfied r.ctxJwtInfo)
    (hsub : j.Subject = some sub) (hget : env.getUserErr = false)
    (huser : GetUserBySubject w.db sub = some user) (hdis : user.OTPEnabled = false)
    (hsget : env.sessionGetErr = false)
    (himg : sessString w.session.OTPImage = some base64Image)
    (hsec : sessString w.session.OTPSecret = some secretKey)
    (hpw : env.VerifyPasswordHash user.PasswordHash (FormValue r "password") = true)
    (hcode : len (FormValue r "otp") ≠ 0)
    (hvalid : env.totpValidate (FormValue r "otp") secretKey = true)
    (hupd : env.updateUserErr = false) :
    (handleAccountOtpPost env r w).trace
      = [.getUserBySubject sub, .sessionGet,
         .updateUser { user with OTPSecret := secretKey, OTPEnabled := true },
         .redirect "/account/otp" 302] ∧
    (handleAccountOtpPost env r w).world.db
      = UpdateUser w.db { user with OTPSecret := secretKey, OTPEnabled := true } ∧
    (handleAccountOtpPost env r w).world.session = w.session ∧
    (∀ v, Event.sessionSave v ∉ (handleAccountOtpPost env r w).trace) := by
  obtain ⟨j2, hc2, hj⟩ := stepUpGate_of_satisfied _ hgate
  have : j2 = j := by rw [hctx] at hc2; simpa using hc2.symm
  subst this
  simp [handleAccountOtpPost, hj, otpPostBody, hsub, hget, huser, hdis, hsget, himg, hsec,
    hpw, hcode, hvalid, hupd]

/-- C14 at a successful enrollment: the session is what it was. -/
theorem otp_enable_leaves_session_witness :
    (handleAccountOtpPost sampleEnv
      (sampleRequest (some (sampleJwt .AcrLevel2)) [("password", "old"), ("otp", "secret-alice")])
      pendingWorld).world.session = pendingWorld.session :=
  (otp_enable_leaves_session sampleEnv
    (sampleRequest (some (sampleJwt .AcrLevel2)) [("password", "old"), ("otp", "secret-alice")])
    pendingWorld (sampleJwt .AcrLevel2) "alice" sampleUser "img-alice" "secret-alice" rfl
    (by decide) rfl rfl (by decide) rfl rfl rfl rfl (by decide) (by decide) (by decide)
    rfl).2.2.1

/-- One denied interactive request, whatever the session holds as counter: a redirect that
stores a counter of at most 2, or the terminal page that removes the counter, or a failed
assertion on a slot that holds no number. -/
theorem deny_cases (env : Env) (c : String) (scopes : List String) (r : Request) (w : World)
    (hget : env.sessionGetErr = false) (hsave : env.sessionSaveErr = false)
    (hredir : ∀ v c u, (env.redirToAuthorize v c u).RedirToAuthorizeCount = v.RedirToAuthorizeCount)
    (hd : denied env scopes r) (hi : interactive r) :
    (∃ n : Int, n ≤ 2 ∧ (MiddlewareRequiresScope env c scopes r w).counter = some (.int n)) ∨
    (MiddlewareRequiresScope env c scopes r w).counter = none ∨
    ((MiddlewareRequiresScope env c scopes r w).world = w ∧
      ∃ v, w.session.RedirToAuthorizeCount = some v ∧ v ≠ .nil ∧ ∀ n, v ≠ .int n) := by
  obtain ⟨j, hj, hauth⟩ := hd
  unfold interactive at hi
  rcases hc : w.session.RedirToAuthorizeCount with _ | (_ | n | s | t | _)
  · left
    refine ⟨1, by decide, ?_⟩
    simp [MiddlewareRequiresScope, hj, hauth, hi, hget, hc, hredir, Outcome.counter]
  · left
    refine ⟨1, by decide, ?_⟩
    simp [MiddlewareRequiresScope, hj, hauth, hi, hget, hc, hredir, Outcome.counter]
  · by_cases hn : incInt n > 2
    · right; left
      simp [MiddlewareRequiresScope, hj, hauth, hi, hget, hsave, hc, hn, Outcome.counter]
    · left
      refine ⟨incInt n, by omega, ?_⟩
      simp [MiddlewareRequiresScope, hj, hauth, hi, hget, hc, hredir, hn, Outcome.counter]
  all_goals
    right; right
    simp [MiddlewareRequiresScope, hj, hauth, hi, hget, hc]

/-- A denied interactive request that is answered with a redirect does not lower the
counter it finds, when that counter is absent or a number of at most 2; it is not answered
with a redirect when the slot holds something that is not a number. -/
theorem deny_redirect_grows (env : Env) (c : String) (scopes : List String) (r : Request)
    (w : World) (u : String) (hget : env.sessionGetErr = false)
    (hredir : ∀ v c u, (env.redirToAuthorize v c u).RedirToAuthorizeCount = v.RedirToAuthorizeCount)
    (hd : denied env scopes r) (hi : interactive r)
    (hr : isRedirectTo (MiddlewareRequiresScope env c scopes r w) u) :
    (w.session.RedirToAuthorizeCount = none →
      counterLe none (MiddlewareRequiresScope env c scopes r w).counter) ∧
    (∀ n : Int, n ≤ 2 → w.session.RedirToAuthorizeCount = some (.int n) →
      counterLe (some (.int n)) (MiddlewareRequiresScope env c scopes r w).counter) ∧
    ¬ (∃ v, w.session.RedirToAuthorizeCount = some v ∧ v ≠ .nil ∧ ∀ n, v ≠ .int n) := by
  obtain ⟨j, hj, hauth⟩ := hd
  unfold interactive at hi
  refine ⟨fun _ => by simp [counterLe, counterValue], ?_, ?_⟩
  · intro n hn hc
    have hinc : incInt n = n + 1 := by
      unfold incInt; rw [if_neg (by omega)]
    by_cases h3 : n + 1 > 2
    · exfalso
      revert hr
      by_cases hs : env.sessionSaveErr = true <;>
        simp [MiddlewareRequiresScope, hj, hauth, hi, hget, hc, hinc, h3, hs, isRedirectTo]
    · simp [MiddlewareRequiresScope, hj, hauth, hi, hget, hc, hinc, h3, hredir,
        Outcome.counter, counterLe, counterValue]
  · rintro ⟨v, hc, hnil, hint⟩
    revert hr
    rcases v with _ | n | s | t | _
    · exact absurd rfl hnil
    · exact absurd rfl (hint n)
    all_goals simp [MiddlewareRequiresScope, hj, hauth, hi, hget, hc, isRedirectTo]

/-- C15, counterexample: three consecutive denials of one session leave the counters 1, 2
and absent; the counter after the third denial is smaller than the counter after the
second. -/
theorem retry_counter_reset_counterexample :
    (∀ p ∈ threeDenied, denied sampleEnv p.1 p.2 ∧ interactive p.2) ∧
    ((serveAll sampleEnv "system-website" threeDenied sampleWorld).map Outcome.counter)
      = [some (.int 1), some (.int 2), none] ∧
    ¬ counterLe (some (.int 2)) none := by
  decide

/-- C15, amended: for two consecutive denied interactive requests of one session (session
store working), the counter after the later denial is not smaller than the counter after
the earlier one whenever the later denial is answered with a redirect; a later denial
answered with the terminal unauthorized page leaves the counter absent; and after the next
allowed request the counter is absent. -/
theorem retry_counter_monotone_until_reset (env : Env) (c : String) (s1 s2 s3 : List String)
    (r1 r2 r3 : Request) (w : World)
    (hget : env.sessionGetErr = false) (hsave : env.sessionSaveErr = false)
    (hredir : ∀ v c u, (env.redirToAuthorize v c u).RedirToAuthorizeCount = v.RedirToAuthorizeCount)
    (hd1 : denied env s1 r1) (hi1 : interactive r1)
    (hd2 : denied env s2 r2) (hi2 : interactive r2)
    (ha3 : allowed env s3 r3) (hi3 : interactive r3) :
    (isRedirectTo (MiddlewareRequiresScope env c s2 r2
        (MiddlewareRequiresScope env c s1 r1 w).world) (env.baseUrl ++ r2.RequestURI) →
      counterLe (MiddlewareRequiresScope env c s1 r1 w).counter
        (MiddlewareRequiresScope env c s2 r2 (MiddlewareRequiresScope env c s1 r1 w).world).counter) ∧
    (isTerminal (MiddlewareRequiresScope env c s2 r2
        (MiddlewareRequiresScope env c s1 r1 w).world) →
      (MiddlewareRequiresScope env c s2 r2
        (MiddlewareRequiresScope env c s1 r1 w).world).counter = none) ∧
    (MiddlewareRequiresScope env c s3 r3
      (MiddlewareRequiresScope env c s2 r2
        (MiddlewareRequiresScope env c s1 r1 w).world).world).counter = none := by
  refine ⟨?_, ?_, ?_⟩
  · intro hr2
    have hg := deny_redirect_grows env c s2 r2 (MiddlewareRequiresScope env c s1 r1 w).world _
      hget hredir hd2 hi2 hr2
    rcases deny_cases env c s1 r1 w hget hsave hredir hd1 hi1 with
      ⟨n1, hn1, hc1⟩ | hc1 | ⟨hw1, hill⟩
    · rw [hc1]; exact hg.2.1 n1 hn1 hc1
    · rw [hc1]; exact hg.1 hc1
    · rw [hw1] at hg
      exact absurd hill hg.2.2
  · rintro ⟨v, _, hv, hs⟩
    unfold Outcome.counter
    rw [hs]; exact hv
  · obtain ⟨j, hj, hauth⟩ := ha3
    unfold interactive at hi3
    simp [MiddlewareRequiresScope, hj, hauth, hi3, hget, hsave, Outcome.counter]

/-- C15 at two denials followed by an allowed request of the sample user. -/
theorem retry_counter_monotone_until_reset_witness :
    counterLe
      (MiddlewareRequiresScope sampleEnv "system-website" ["admin"] (sampleRequest none [])
        sampleWorld).counter
      (MiddlewareRequiresScope sampleEnv "system-website" ["admin"] (sampleRequest none [])
        (MiddlewareRequiresScope sampleEnv "system-website" ["admin"] (sampleRequest none [])
          sampleWorld).world).counter :=
  (retry_counter_monotone_until_reset sampleEnv "system-website" ["admin"] ["admin"] ["account"]
    (sampleRequest none []) (sampleRequest none [])
    (sampleRequest (some (sampleJwt .AcrLevel1)) []) sampleWorld rfl rfl (fun _ _ _ => rfl)
    (by decide) (by decide) (by decide) (by decide) (by decide) (by decide)).1 (by decide)

/-- After `UpdateUser` with a record that keeps the identifier and the subject of the
record found for a subject, the lookup of that subject finds the record written. -/
theorem GetUserBySubject_UpdateUser (db : List User) (sub : String) (user u : User)
    (hfind : GetUserBySubject db sub = some user) (hid : u.Id = user.Id)
    (hs : u.Subject = sub) :
    GetUserBySubject (UpdateUser db u) sub = some u := by
  unfold GetUserBySubject UpdateUser at *
  induction db with
  | nil => simp at hfind
  | cons x xs ih =>
    simp only [List.map_cons, List.find?_cons]
    by_cases hx : x.Id = u.Id
    · simp [hx, hs]
    · simp only [hx, if_false]
      simp only [List.find?_cons] at hfind
      by_cases hsx : (x.Subject == sub) = true
      · simp only [hsx] at hfind
        have : x = user := Option.some.inj hfind
        subst this
        exact absurd hid.symm hx
      · simp only [hsx] at hfind ⊢
        exact ih hfind

/-- After a successful password change (the five preconditions hold, hashing and the update
succeed) the hash stored for the user is the hasher's output for the new password; it
differs from the hash stored before exactly when that output differs from it. -/
theorem changePassword_stored_hash (env : Env) (r : Request) (w : World) (j : JwtInfo)
    (sub : String) (user : User) (passwordHash : String)
    (hctx : r.ctxJwtInfo = some (.jwtInfo j)) (hgate : gateSatisfied r.ctxJwtInfo)
    (hsub : j.Subject = some sub) (hget : env.getUserErr = false)
    (huser : GetUserBySubject w.db sub = some user)
    (hpre : preconditionsHold env user.PasswordHash (FormValue r "currentPassword")
      (FormValue r "newPassword") (FormValue r "newPasswordConfirmation"))
    (hhash : env.HashPassword (FormValue r "newPassword") = some passwordHash)
    (hupd : env.updateUserErr = false) :
    (GetUserBySubject (handleAccountChangePasswordPost env r w).world.db sub).map User.PasswordHash
      = some passwordHash ∧
    ((GetUserBySubject (handleAccountChangePasswordPost env r w).world.db sub).map User.PasswordHash
        ≠ (GetUserBySubject w.db sub).map User.PasswordHash ↔
      passwordHash ≠ user.PasswordHash) := by
  obtain ⟨j2, hc2, hj⟩ := stepUpGate_of_satisfied _ hgate
  have : j2 = j := by rw [hctx] at hc2; simpa using hc2.symm
  subst this
  obtain ⟨h1, h2, h3, h4, h5⟩ := hpre
  have hsubj : user.Subject = sub := by
    have := List.find?_some huser
    simpa using this
  have hdb : (handleAccountChangePasswordPost env r w).world.db
      = UpdateUser w.db { user with PasswordHash := passwordHash
                                    ForgotPasswordCodeEncrypted := none
                                    ForgotPasswordCodeIssuedAt := none } := by
    simp only [handleAccountChangePasswordPost, hj, changePasswordPostBody, renderTemplate,
      hsub, hget, huser]
    generalize FormValue r "newPassword" = new at h3 h4 h5 hhash ⊢
    generalize FormValue r "newPasswordConfirmation" = conf at h4 ⊢
    subst h4
    simp [h1, h2, h3, h5, hhash, hupd]
  have hfound := GetUserBySubject_UpdateUser w.db sub user
    { user with PasswordHash := passwordHash
                ForgotPasswordCodeEncrypted := none
                ForgotPasswordCodeIssuedAt := none } huser rfl hsubj
  rw [hdb, hfound, huser]
  simp

/-- A hasher whose hashes verify for one password only never returns, for a new password
that differs from the current one, a hash the current password verifies against: its
output differs from the stored hash. -/
theorem fresh_of_sound (env : Env) (storedHash current new passwordHash : String)
    (hsound : ∀ p q h, env.HashPassword p = some h → env.VerifyPasswordHash h q = true → p = q)
    (hverify : env.VerifyPasswordHash storedHash current = true)
    (hhash : env.HashPassword new = some passwordHash) (hne : new ≠ current) :
    passwordHash ≠ storedHash := by
  intro h
  subst h
  exact hne (hsound new current passwordHash hhash hverify)

/-- C16: after a successful password change (the five preconditions hold, hashing and the
update succeed), the hash stored for the user is the hasher's output for the new password
and differs from the hash stored before, the hasher returning for the new password a hash
other than the stored one. -/
theorem changePassword_hash_differs (env : Env) (r : Request) (w : World) (j : JwtInfo)
    (sub : String) (user : User) (passwordHash : String)
    (hctx : r.ctxJwtInfo = some (.jwtInfo j)) (hgate : gateSatisfied r.ctxJwtInfo)
    (hsub : j.Subject = some sub) (hget : env.getUserErr = false)
    (huser : GetUserBySubject w.db sub = some user)
    (hpre : preconditionsHold env user.PasswordHash (FormValue r "currentPassword")
      (FormValue r "newPassword") (FormValue r "newPasswordConfirmation"))
    (hhash : env.HashPassword (FormValue r "newPassword") = some passwordHash)
    (hupd : env.updateUserErr = false)
    (hfresh : passwordHash ≠ user.PasswordHash) :
    (GetUserBySubject (handleAccountChangePasswordPost env r w).world.db sub).map User.PasswordHash
      = some passwordHash ∧
    (GetUserBySubject (handleAccountChangePasswordPost env r w).world.db sub).map User.PasswordHash
      ≠ (GetUserBySubject w.db sub).map User.PasswordHash :=
  have h := changePassword_stored_hash env r w j sub user passwordHash hctx hgate hsub hget
    huser hpre hhash hupd
  ⟨h.1, h.2.mpr hfresh⟩

/-- C16 at a change of the sample user from `"old"` to `"newpw"`: the stored hash is the
hash of the new password and differs from the one stored before. -/
theorem changePassword_hash_differs_witness :
    (GetUserBySubject (handleAccountChangePasswordPost sampleEnv
      (sampleRequest (some (sampleJwt .AcrLevel2)) (passwordForm "old" "newpw" "newpw"))
      sampleWorld).world.db "alice").map User.PasswordHash = some "h:newpw" ∧
    (GetUserBySubject (handleAccountChangePasswordPost sampleEnv
      (sampleRequest (some (sampleJwt .AcrLevel2)) (passwordForm "old" "newpw" "newpw"))
      sampleWorld).world.db "alice").map User.PasswordHash
      ≠ (GetUserBySubject sampleWorld.db "alice").map User.PasswordHash :=
  changePassword_hash_differs sampleEnv
    (sampleRequest (some (sampleJwt .AcrLevel2)) (passwordForm "old" "newpw" "newpw"))
    sampleWorld (sampleJwt .AcrLevel2) "alice" sampleUser "h:newpw" rfl (by decide) rfl rfl
    (by decide) (by decide) (by decide) rfl (by decide)

/-- The OTP GET of a disabled user, collaborators not failing: the world it leaves. -/
theorem otpGet_disabled_world (env : Env) (r : Request) (w : World) (j : JwtInfo)
    (sub : String) (user : User) (base64Image secretKey : String)
    (hctx : r.ctxJwtInfo = some (.jwtInfo j)) (hgate : gateSatisfied r.ctxJwtInfo)
    (hsub : j.Subject = some sub) (hget : env.getUserErr = false)
    (huser : GetUserBySubject w.db sub = some user) (hdis : user.OTPEnabled = false)
    (hset : r.ctxSettings = some .settings) (hsg : env.sessionGetErr = false)
    (hss : env.sessionSaveErr = false)
    (hgen : env.GenerateOTPSecret user = some (base64Image, secretKey)) :
    (handleAccountOtpGet env r w).world
      = { w with session := { w.session with OTPSecret := some (.str secretKey)
                                             OTPImage := some (.str base64Image) } } := by
  obtain ⟨j2, hc2, hj⟩ := stepUpGate_of_satisfied _ hgate
  have : j2 = j := by rw [hctx] at hc2; simpa using hc2.symm
  subst this
  simp [handleAccountOtpGet, hj, otpGetBody, hsub, hget, huser, hdis, hset, hsg, hss, hgen]

/-- C17: after two consecutive views of the enrollment page by a user whose second factor
is disabled (collaborators not failing), the session holds the secret and the image of the
second view and nothing of the first. A following OTP POST with a correct password and a
code that validates against the first secret but not against the second is rejected and
writes nothing, while the same POST right after the first view would have enabled the
factor with the first secret. -/
theorem enrollment_reentrant (env1 env2 env3 : Env) (r1 r2 r3 : Request) (w : World)
    (j : JwtInfo) (sub : String) (user : User) (img1 sec1 img2 sec2 : String)
    (hctx1 : r1.ctxJwtInfo = some (.jwtInfo j)) (hctx2 : r2.ctxJwtInfo = some (.jwtInfo j))
    (hctx3 : r3.ctxJwtInfo = some (.jwtInfo j)) (hgate : gateSatisfied (some (.jwtInfo j)))
    (hsub : j.Subject = some sub)
    (huser : GetUserBySubject w.db sub = some user) (hdis : user.OTPEnabled = false)
    (hget1 : env1.getUserErr = false) (hget2 : env2.getUserErr = false)
    (hget3 : env3.getUserErr = false)
    (hset1 : r1.ctxSettings = some .settings) (hset2 : r2.ctxSettings = some .settings)
    (hsg1 : env1.sessionGetErr = false) (hsg2 : env2.sessionGetErr = false)
    (hsg3 : env3.sessionGetErr = false)
    (hss1 : env1.sessionSaveErr = false) (hss2 : env2.sessionSaveErr = false)
    (hgen1 : env1.GenerateOTPSecret user = some (img1, sec1))
    (hgen2 : env2.GenerateOTPSecret user = some (img2, sec2))
    (hpw : env3.VerifyPasswordHash user.PasswordHash (FormValue r3 "password") = true)
    (hfirst : env3.totpValidate (FormValue r3 "otp") sec1 = true)
    (hsecond : env3.totpValidate (FormValue r3 "otp") sec2 = false) :
    (handleAccountOtpGet env1 r1 w).world.session.OTPSecret = some (.str sec1) ∧
    (handleAccountOtpGet env2 r2 (handleAccountOtpGet env1 r1 w).world).world.session.OTPSecret
      = some (.str sec2) ∧
    (handleAccountOtpGet env2 r2 (handleAccountOtpGet env1 r1 w).world).world.session.OTPImage
      = some (.str img2) ∧
    rejections (handleAccountOtpPost env3 r3
        (handleAccountOtpGet env2 r2 (handleAccountOtpGet env1 r1 w).world).world).trace
      = [if len (FormValue r3 "otp") = 0 then "OTP code is required." else incorrectOtpError] ∧
    updates (handleAccountOtpPost env3 r3
        (handleAccountOtpGet env2 r2 (handleAccountOtpGet env1 r1 w).world).world).trace = [] ∧
    (handleAccountOtpPost env3 r3
        (handleAccountOtpGet env2 r2 (handleAccountOtpGet env1 r1 w).world).world).world.db
      = w.db ∧
    (len (FormValue r3 "otp") ≠ 0 →
      updates (handleAccountOtpPost env3 r3 (handleAccountOtpGet env1 r1 w).world).trace
        = [{ user with OTPSecret := sec1, OTPEnabled := true }]) := by
  have e1 := otpGet_disabled_world env1 r1 w j sub user img1 sec1 hctx1 (hctx1 ▸ hgate) hsub
    hget1 huser hdis hset1 hsg1 hss1 hgen1
  rw [e1]
  have e2 := otpGet_disabled_world env2 r2
    { w with session := { w.session with OTPSecret := some (.str sec1)
                                         OTPImage := some (.str img1) } }
    j sub user img2 sec2 hctx2 (hctx2 ▸ hgate) hsub hget2 huser hdis hset2 hsg2 hss2 hgen2
  rw [e2]
  obtain ⟨j2, hc2, hj⟩ := stepUpGate_of_satisfied _ (hctx3 ▸ hgate)
  have : j2 = j := by rw [hctx3] at hc2; simpa using hc2.symm
  subst this
  refine ⟨rfl, rfl, rfl, ?_⟩
  simp only [handleAccountOtpPost, hj, otpPostBody, otpRenderError, renderTemplate, hsub, hget3,
    huser, hdis, hsg3, sessString, hpw, hsecond, hfirst]
  by_cases h0 : len (FormValue r3 "otp") = 0 <;> by_cases hr : env3.renderErr = true <;>
    by_cases hl : len img2 > 0 <;> by_cases hu : env3.updateUserErr = true <;>
    simp [h0, hr, hl, hu, updates, rejections]

/-- C17 at two views of the enrollment page with different generated pairs, followed by a
POST with the code of the first secret: rejected, nothing written. -/
theorem enrollment_reentrant_witness :
    updates (handleAccountOtpPost sampleEnv
        (sampleRequest (some (sampleJwt .AcrLevel2)) [("password", "old"), ("otp", "secret-alice")])
        (handleAccountOtpGet secondEnv (sampleRequest (some (sampleJwt .AcrLevel2)) [])
          (handleAccountOtpGet sampleEnv (sampleRequest (some (sampleJwt .AcrLevel2)) [])
            sampleWorld).world).world).trace = [] :=
  (enrollment_reentrant sampleEnv secondEnv sampleEnv
    (sampleRequest (some (sampleJwt .AcrLevel2)) [])
    (sampleRequest (some (sampleJwt .AcrLevel2)) [])
    (sampleRequest (some (sampleJwt .AcrLevel2)) [("password", "old"), ("otp", "secret-alice")])
    sampleWorld (sampleJwt .AcrLevel2) "alice" sampleUser "img-alice" "secret-alice"
    "img2-alice" "second-alice" rfl rfl rfl (by decide) rfl (by decide) rfl rfl rfl rfl rfl rfl
    rfl rfl rfl rfl rfl (by decide) (by decide) (by decide) (by decide) (by decide)).2.2.2.2.1

/-- `UpdateUser` with a record that satisfies the invariant keeps the invariant of the
table. -/
theorem UpdateUser_invariant (db : List User) (u : User) (hdb : dbInvariant db)
    (hu : secretOnlyWhenEnabled u) : dbInvariant (UpdateUser db u) := by
  intro x hx
  unfold UpdateUser at hx
  obtain ⟨y, hy, rfl⟩ := List.mem_map.mp hx
  by_cases h : y.Id = u.Id
  · simpa [h] using hu
  · simpa [h] using hdb y hy

/-- The record found for a subject is a record of the table. -/
theorem GetUserBySubject_mem (db : List User) (sub : String) (user : User)
    (h : GetUserBySubject db sub = some user) : user ∈ db :=
  List.mem_of_find?_eq_some h

/-- The password-change POST keeps the invariant of the user table. -/
theorem changePasswordPostBody_invariant (env : Env) (r : Request) (j : JwtInfo) (w : World)
    (hinv : dbInvariant w.db) : dbInvariant (changePasswordPostBody env r j w).world.db := by
  simp only [changePasswordPostBody]
  repeat' split
  all_goals first
    | exact hinv
    | (apply UpdateUser_invariant _ _ hinv
       have hm := GetUserBySubject_mem _ _ _ ‹GetUserBySubject w.db _ = some _›
       have hu := hinv _ hm
       exact hu)

/-- The OTP GET keeps the invariant of the user table. -/
theorem otpGetBody_invariant (env : Env) (r : Request) (j : JwtInfo) (w : World)
    (hinv : dbInvariant w.db) : dbInvariant (otpGetBody env r j w).world.db := by
  simp only [otpGetBody]
  repeat' split
  all_goals exact hinv

/-- The OTP POST keeps the invariant of the user table, in both branches. -/
theorem otpPostBody_invariant (env : Env) (r : Request) (j : JwtInfo) (w : World)
    (hinv : dbInvariant w.db) : dbInvariant (otpPostBody env r j w).world.db := by
  simp only [otpPostBody]
  repeat' split
  all_goals first
    | exact hinv
    | (apply UpdateUser_invariant _ _ hinv
       intro h
       first
         | rfl
         | exact absurd rfl h)

/-- C18: if every record of the user table satisfies `the second-factor secret is
non-empty only when the enabled flag is set` before a request, then every record satisfies
it after the OTP GET, the OTP POST (enable and disable branches), the password-change GET
and the password-change POST, on success and on every rejection or failure. -/
theorem credential_invariant_preserved (env : Env) (r : Request) (w : World)
    (hinv : dbInvariant w.db) :
    dbInvariant (handleAccountOtpGet env r w).world.db ∧
    dbInvariant (handleAccountOtpPost env r w).world.db ∧
    dbInvariant (handleAccountChangePasswordGet env r w).world.db ∧
    dbInvariant (handleAccountChangePasswordPost env r w).world.db := by
  refine ⟨?_, ?_, ?_, ?_⟩
  · unfold handleAccountOtpGet
    split
    · exact hinv
    · exact hinv
    · exact otpGetBody_invariant env r _ w hinv
  · unfold handleAccountOtpPost
    split
    · exact hinv
    · exact hinv
    · exact otpPostBody_invariant env r _ w hinv
  · unfold handleAccountChangePasswordGet
    split
    · exact hinv
    · exact hinv
    · exact hinv
  · unfold handleAccountChangePasswordPost
    split
    · exact hinv
    · exact hinv
    · exact changePasswordPostBody_invariant env r _ w hinv

/-- C18 at the POST that enables the second factor of the sample user. -/
theorem credential_invariant_preserved_witness :
    dbInvariant pendingWorld.db ∧
    dbInvariant (handleAccountOtpPost sampleEnv
      (sampleRequest (some (sampleJwt .AcrLevel2)) [("password", "old"), ("otp", "secret-alice")])
      pendingWorld).world.db :=
  ⟨by decide,
   (credential_invariant_preserved sampleEnv
    (sampleRequest (some (sampleJwt .AcrLevel2)) [("password", "old"), ("otp", "secret-alice")])
    pendingWorld (by decide)).2.1⟩


/-- C19: an OTP POST that passes the step-up gate on a user whose second factor is disabled
and whose session holds no pending secret validates the code against the empty secret
(lines 168-174 and 193). With a verifying password and a non-empty code that the engine
accepts for the empty secret, the handler enables the second factor: it writes the record
with the empty secret and the enabled flag, and the user table holds it afterwards. -/
theorem otp_enable_without_pending_enables (env : Env) (r : Request) (w : World) (j : JwtInfo)
    (sub : String) (user : User) (base64Image : String)
    (hctx : r.ctxJwtInfo = some (.jwtInfo j)) (hgate : gateSatisfied r.ctxJwtInfo)
    (hsub : j.Subject = some sub) (hget : env.getUserErr = false)
    (huser : GetUserBySubject w.db sub = some user) (hdis : user.OTPEnabled = false)
    (hsg : env.sessionGetErr = false)
    (hnone : w.session.OTPSecret = none)
    (himg : sessString w.session.OTPImage = some base64Image)
    (hpw : env.VerifyPasswordHash user.PasswordHash (FormValue r "password") = true)
    (hcode : len (FormValue r "otp") ≠ 0)
    (hacc : env.totpValidate (FormValue r "otp") "" = true)
    (hupd : env.updateUserErr = false) :
    (handleAccountOtpPost env r w).trace
      = [.getUserBySubject sub, .sessionGet,
         .updateUser { user with OTPSecret := "", OTPEnabled := true },
         .redirect "/account/otp" 302] ∧
    (handleAccountOtpPost env r w).world.db
      = UpdateUser w.db { user with OTPSecret := "", OTPEnabled := true } ∧
    (GetUserBySubject (handleAccountOtpPost env r w).world.db sub).map
        (fun u => (u.OTPEnabled, u.OTPSecret)) = some (true, "") := by
  obtain ⟨j2, hc2, hj⟩ := stepUpGate_of_satisfied _ hgate
  have : j2 = j := by rw [hctx] at hc2; simpa using hc2.symm
  subst this
  have hsec : sessString w.session.OTPSecret = some "" := by rw [hnone]; rfl
  have hsubj : user.Subject = sub := by
    have := List.find?_some huser
    simpa using this
  have hout : handleAccountOtpPost env r w
      = ⟨[.getUserBySubject sub, .sessionGet,
          .updateUser { user with OTPSecret := "", OTPEnabled := true },
          .redirect "/account/otp" 302],
         { w with db := UpdateUser w.db { user with OTPSecret := "", OTPEnabled := true } }⟩ := by
    simp [handleAccountOtpPost, hj, otpPostBody, hsub, hget, huser, hdis, hsg, himg, hsec,
      hpw, hcode, hacc, hupd]
  rw [hout]
  refine ⟨rfl, rfl, ?_⟩
  have hfound := GetUserBySubject_UpdateUser w.db sub user
    { user with OTPSecret := "", OTPEnabled := true } huser rfl hsubj
  simp only [hfound, Option.map_some']

/-- The OTP POST of a disabled user whose session holds no pending secret writes nothing
and leaves the world as it was unless the password verifies, the code is non-empty and the
engine accepts the code for the empty secret. -/
theorem otp_post_without_pending_unchanged (env : Env) (r : Request) (w : World) (j : JwtInfo)
    (sub : String) (user : User)
    (hctx : r.ctxJwtInfo = some (.jwtInfo j)) (hgate : gateSatisfied r.ctxJwtInfo)
    (hsub : j.Subject = some sub)
    (huser : GetUserBySubject w.db sub = some user) (hdis : user.OTPEnabled = false)
    (hnone : w.session.OTPSecret = none)
    (hno : ¬ (env.VerifyPasswordHash user.PasswordHash (FormValue r "password") = true ∧
      len (FormValue r "otp") ≠ 0 ∧ env.totpValidate (FormValue r "otp") "" = true)) :
    updates (handleAccountOtpPost env r w).trace = [] ∧
    (handleAccountOtpPost env r w).world = w := by
  obtain ⟨j2, hc2, hj⟩ := stepUpGate_of_satisfied _ hgate
  have : j2 = j := by rw [hctx] at hc2; simpa using hc2.symm
  subst this
  have hsec : sessString w.session.OTPSecret = some "" := by rw [hnone]; rfl
  simp only [handleAccountOtpPost, hj, otpPostBody, otpRenderError, renderTemplate,
    hsub, huser, hdis, hsec]
  by_cases hg : env.getUserErr = true
  · simp [hg, updates]
  · by_cases hsg : env.sessionGetErr = true
    · simp [hg, hsg, updates]
    · rcases himg : sessString w.session.OTPImage with _ | img
      · simp [hg, hsg, updates]
      · cases h1 : env.VerifyPasswordHash user.PasswordHash (FormValue r "password") <;>
        by_cases h2 : len (FormValue r "otp") = 0 <;>
        cases h3 : env.totpValidate (FormValue r "otp") "" <;>
        by_cases hr : env.renderErr = true <;>
        by_cases hl : len img > 0 <;>
        simp_all [updates]

/-- C19 at the failing input: the sample user, second factor disabled, never viewed the
enrollment page; the correct password and the code that the engine accepts for the empty
secret enable the second factor with an empty secret. -/
theorem otp_enable_without_pending_enables_witness :
    sampleUser.OTPEnabled = false ∧ sampleWorld.session.OTPSecret = none ∧
    (handleAccountOtpPost derivingEnv
      (sampleRequest (some (sampleJwt .AcrLevel2)) [("password", "old"), ("otp", "otp:")])
      sampleWorld).world.db
      = [⟨7, "alice", "h:old", "", true, some [1, 2, 3], some 1700000000⟩] :=
  ⟨rfl, rfl,
   (otp_enable_without_pending_enables derivingEnv
    (sampleRequest (some (sampleJwt .AcrLevel2)) [("password", "old"), ("otp", "otp:")])
    sampleWorld (sampleJwt .AcrLevel2) "alice" sampleUser "" rfl (by decide) rfl rfl
    (by decide) rfl rfl rfl rfl (by decide) (by decide) (by decide) rfl).2.1⟩

/-- C20, counterexample: with a number stored where the pending secret is expected, the OTP
POST of a disabled user reads the session and stops at the unchecked assertion
`val.(string)`: the trace ends with the abort, no page is rendered, no redirect and no
error response is written. The retry counter of `MiddlewareRequiresScope`, read with a
checked assertion, answers an ill-typed value with the status 500 instead. -/
theorem otpPost_ill_typed_session_aborts :
    gateSatisfied (sampleRequest (some (sampleJwt .AcrLevel2))
      [("password", "old"), ("otp", "123456")]).ctxJwtInfo ∧
    illTypedWorld.session.OTPSecret = some (.int 5) ∧
    (handleAccountOtpPost sampleEnv
      (sampleRequest (some (sampleJwt .AcrLevel2)) [("password", "old"), ("otp", "123456")])
      illTypedWorld).trace
      = [.getUserBySubject "alice", .sessionGet, .abort] ∧
    renders (handleAccountOtpPost sampleEnv
      (sampleRequest (some (sampleJwt .AcrLevel2)) [("password", "old"), ("otp", "123456")])
      illTypedWorld).trace = [] ∧
    (MiddlewareRequiresScope sampleEnv "system-website" ["admin"] (sampleRequest none [])
      ⟨{ emptyValues with RedirToAuthorizeCount := some (.str "2") }, [sampleUser]⟩).trace
      = [.sessionGet, .httpError 500
          "unable to cast the session value (SessionKeyRedirToAuthorizeCount) to int in WithAuthorization middleware"] := by
  decide


/-- Past the gate the OTP GET leaves the two enrollment slots typed. -/
theorem otpGetBody_slotsTyped (env : Env) (r : Request) (j : JwtInfo) (w : World)
    (hty : slotsTyped w.session) : slotsTyped (otpGetBody env r j w).world.session := by
  simp only [otpGetBody]
  repeat' split
  all_goals first
    | exact hty
    | exact ⟨⟨_, rfl⟩, ⟨_, rfl⟩⟩

/-- Past the gate the OTP POST leaves the session as it was. -/
theorem otpPostBody_session (env : Env) (r : Request) (j : JwtInfo) (w : World) :
    (otpPostBody env r j w).world.session = w.session := by
  simp only [otpPostBody]
  repeat' split
  all_goals rfl

/-- Past the gate the password-change POST leaves the session as it was. -/
theorem changePasswordPostBody_session (env : Env) (r : Request) (j : JwtInfo) (w : World) :
    (changePasswordPostBody env r j w).world.session = w.session := by
  simp only [changePasswordPostBody]
  repeat' split
  all_goals rfl

/-- C20, amended: for every session whose pending secret and pending image are absent or
strings, the reads of the session in the OTP POST handler complete without a failed type
assertion: once the session has been read the request is not aborted, and for a request
that passes the step-up gate with its user found the handler never aborts and finishes
with a response (a page, the fatal page or a redirect). Past the gate the four account
handlers keep the two slots absent or strings: the OTP GET stores strings, the other three
leave the session as it was. -/
theorem otpPost_typed_session_responds (env : Env) (r : Request) (w : World)
    (hty : slotsTyped w.session) :
    (Event.sessionGet ∈ (handleAccountOtpPost env r w).trace →
      Event.abort ∉ (handleAccountOtpPost env r w).trace) ∧
    (∀ j sub user, r.ctxJwtInfo = some (.jwtInfo j) → gateSatisfied r.ctxJwtInfo →
      j.Subject = some sub → GetUserBySubject w.db sub = some user →
      Event.abort ∉ (handleAccountOtpPost env r w).trace ∧
      (handleAccountOtpPost env r w).trace.getLast?.map isResponse = some true) ∧
    (gateSatisfied r.ctxJwtInfo →
      slotsTyped (handleAccountOtpGet env r w).world.session ∧
      (handleAccountOtpPost env r w).world.session = w.session ∧
      (handleAccountChangePasswordGet env r w).world.session = w.session ∧
      (handleAccountChangePasswordPost env r w).world.session = w.session) := by
  obtain ⟨⟨img, himg⟩, ⟨sec, hsec⟩⟩ := hty
  refine ⟨?_, ?_, ?_⟩
  · simp only [handleAccountOtpPost, stepUpRedirect, otpPostBody, otpRenderError, renderTemplate,
      himg, hsec]
    repeat' split
    all_goals simp
  · intro j sub user hctx hgate hsub huser
    obtain ⟨j2, hc2, hj⟩ := stepUpGate_of_satisfied _ hgate
    have : j2 = j := by rw [hctx] at hc2; simpa using hc2.symm
    subst this
    simp only [handleAccountOtpPost, hj, otpPostBody, otpRenderError, renderTemplate,
      hsub, huser, himg, hsec]
    by_cases hg : env.getUserErr = true
    · simp [hg, isResponse]
    · simp only [hg, Bool.false_eq_true, if_false]
      cases hen : user.OTPEnabled
      · simp only [Bool.false_eq_true, if_false]
        by_cases hsg : env.sessionGetErr = true
        · simp [hsg, isResponse]
        · simp only [hsg, if_false]
          cases h1 : env.VerifyPasswordHash user.PasswordHash (FormValue r "password")
          · by_cases hr : env.renderErr = true <;> simp [hr, isResponse]
          · by_cases h2 : len (FormValue r "otp") = 0
            · by_cases hr : env.renderErr = true <;> simp [h2, hr, isResponse]
            · cases h3 : env.totpValidate (FormValue r "otp") sec
              · by_cases hr : env.renderErr = true <;> simp [h2, hr, isResponse]
              · by_cases hu : env.updateUserErr = true <;> simp [h2, hu, isResponse]
      · simp only [if_true]
        cases h1 : env.VerifyPasswordHash user.PasswordHash (FormValue r "password")
        · by_cases hr : env.renderErr = true <;> simp [hr, isResponse]
        · by_cases hu : env.updateUserErr = true <;> simp [hu, isResponse]
  · intro hgate
    obtain ⟨j, _, hj⟩ := stepUpGate_of_satisfied _ hgate
    refine ⟨?_, ?_, ?_, ?_⟩
    · simp only [handleAccountOtpGet, hj]
      exact otpGetBody_slotsTyped env r j w ⟨⟨img, himg⟩, ⟨sec, hsec⟩⟩
    · simp only [handleAccountOtpPost, hj]
      exact otpPostBody_session env r j w
    · simp [handleAccountChangePasswordGet, hj, changePasswordGetBody]
    · simp only [handleAccountChangePasswordPost, hj]
      exact changePasswordPostBody_session env r j w

/-- C20 at the POST with a wrong code after a view of the enrollment page: the handler
answers with a page. -/
theorem otpPost_typed_session_responds_witness :
    slotsTyped pendingWorld.session ∧
    Event.abort ∉ (handleAccountOtpPost sampleEnv
      (sampleRequest (some (sampleJwt .AcrLevel2)) [("password", "old"), ("otp", "123456")])
      pendingWorld).trace :=
  ⟨by decide,
   ((otpPost_typed_session_responds sampleEnv
    (sampleRequest (some (sampleJwt .AcrLevel2)) [("password", "old"), ("otp", "123456")])
    pendingWorld (by decide)).2.1 (sampleJwt .AcrLevel2) "alice" sampleUser rfl (by decide) rfl
    (by decide)).1⟩

/-- The updates of the OAuth2-flows POST when the client is found and the caller is
authorized: the one record of the form. -/
theorem oauth2_flows_reached (env : Env) (store : ClientStore) (r : Request)
    (clientID : String) (w : AdminWorld) (j : JwtInfo) (id : Nat) (found : Client)
    (hj : contextJwtInfo r.ctxJwtInfo = some j) (hlen : len clientID ≠ 0)
    (hparse : ParseUint clientID = some id) (hget : store.getClientErr = false)
    (hfound : GetClientById w.clients id = some found)
    (hauth : env.isAuthorizedToAccessResource j ["authserver:admin-website"] = true) :
    clientUpdates (handleAdminClientManageOAuth2Post env store r clientID w).trace
      = [flowsRecord r found] := by
  simp only [handleAdminClientManageOAuth2Post, hj, hlen, hparse, hget, hfound, hauth]
  cases hp : found.IsPublic <;>
  by_cases hu : store.updateClientErr = true <;>
  by_cases hsg : env.sessionGetErr = true <;>
  by_cases hss : env.sessionSaveErr = true <;>
  simp [hp, hu, hsg, hss, clientUpdates, flowsRecord]

/-- The OAuth2-flows POST in every other case: no update, and the world as it was. -/
theorem oauth2_flows_not_reached (env : Env) (store : ClientStore) (r : Request)
    (clientID : String) (w : AdminWorld)
    (h : ¬ ∃ j id found, contextJwtInfo r.ctxJwtInfo = some j ∧ len clientID ≠ 0 ∧
      ParseUint clientID = some id ∧ store.getClientErr = false ∧
      GetClientById w.clients id = some found ∧
      env.isAuthorizedToAccessResource j ["authserver:admin-website"] = true) :
    clientUpdates (handleAdminClientManageOAuth2Post env store r clientID w).trace = [] ∧
    (handleAdminClientManageOAuth2Post env store r clientID w).world = w := by
  rcases hj : contextJwtInfo r.ctxJwtInfo with _ | j
  · simp [handleAdminClientManageOAuth2Post, hj, clientUpdates]
  by_cases hlen : len clientID = 0
  · simp [handleAdminClientManageOAuth2Post, hj, hlen, clientUpdates]
  rcases hparse : ParseUint clientID with _ | id
  · simp [handleAdminClientManageOAuth2Post, hj, hlen, hparse, clientUpdates]
  by_cases hget : store.getClientErr = true
  · simp [handleAdminClientManageOAuth2Post, hj, hlen, hparse, hget, clientUpdates]
  rcases hfound : GetClientById w.clients id with _ | found
  · simp [handleAdminClientManageOAuth2Post, hj, hlen, hparse, hget, hfound, clientUpdates]
  cases hauth : env.isAuthorizedToAccessResource j ["authserver:admin-website"]
  · by_cases hr : env.renderErr = true <;>
      simp [handleAdminClientManageOAuth2Post, hj, hlen, hparse, hget, hfound, hauth, hr,
        clientUpdates]
  · exact absurd ⟨j, id, found, hj, hlen, hparse, by simpa using hget, hfound, hauth⟩ h

/-- C21: every client record written by the POST of the OAuth2-flows handler has the
client-credentials flow disabled when the client is public, whatever the form holds; its
authorization-code flag is the submitted checkbox (`authCodeEnabled` equal to `on`), and
for a confidential client the client-credentials flag is the submitted checkbox; the
identifier, the client identifier and the public flag are those of the client found. At
most one update is issued; when the caller is not authorized for the scope
`authserver:admin-website` none is issued and the world is unchanged; and when the client
is found and the caller is authorized, the update is issued. -/
theorem oauth2_flows_update (env : Env) (store : ClientStore) (r : Request) (clientID : String)
    (w : AdminWorld) :
    (∀ c ∈ clientUpdates (handleAdminClientManageOAuth2Post env store r clientID w).trace,
      (c.IsPublic = true → c.ClientCredentialsEnabled = false) ∧
      c.AuthorizationCodeEnabled = decide (FormValue r "authCodeEnabled" = "on") ∧
      (c.IsPublic = false →
        c.ClientCredentialsEnabled = decide (FormValue r "clientCredentialsEnabled" = "on")) ∧
      ∃ id found, ParseUint clientID = some id ∧ GetClientById w.clients id = some found ∧
        c.ID = found.ID ∧ c.ClientIdentifier = found.ClientIdentifier ∧
        c.IsPublic = found.IsPublic) ∧
    (clientUpdates (handleAdminClientManageOAuth2Post env store r clientID w).trace).length ≤ 1 ∧
    ((¬ ∃ j, contextJwtInfo r.ctxJwtInfo = some j ∧
          env.isAuthorizedToAccessResource j ["authserver:admin-website"] = true) →
      clientUpdates (handleAdminClientManageOAuth2Post env store r clientID w).trace = [] ∧
      (handleAdminClientManageOAuth2Post env store r clientID w).world = w) ∧
    (∀ j id found, contextJwtInfo r.ctxJwtInfo = some j → len clientID ≠ 0 →
      ParseUint clientID = some id → store.getClientErr = false →
      GetClientById w.clients id = some found →
      env.isAuthorizedToAccessResource j ["authserver:admin-website"] = true →
      clientUpdates (handleAdminClientManageOAuth2Post env store r clientID w).trace
        = [flowsRecord r found]) := by
  have hcases : (∃ id found, ParseUint clientID = some id ∧
        GetClientById w.clients id = some found ∧
        clientUpdates (handleAdminClientManageOAuth2Post env store r clientID w).trace
          = [flowsRecord r found]) ∨
      clientUpdates (handleAdminClientManageOAuth2Post env store r clientID w).trace = [] := by
    by_cases h : ∃ j id found, contextJwtInfo r.ctxJwtInfo = some j ∧ len clientID ≠ 0 ∧
        ParseUint clientID = some id ∧ store.getClientErr = false ∧
        GetClientById w.clients id = some found ∧
        env.isAuthorizedToAccessResource j ["authserver:admin-website"] = true
    · obtain ⟨j, id, found, hj, hlen, hparse, hget, hfound, hauth⟩ := h
      exact Or.inl ⟨id, found, hparse, hfound,
        oauth2_flows_reached env store r clientID w j id found hj hlen hparse hget hfound hauth⟩
    · exact Or.inr (oauth2_flows_not_reached env store r clientID w h).1
  refine ⟨?_, ?_, ?_, ?_⟩
  · intro c hc
    rcases hcases with ⟨id, found, hparse, hfound, hu⟩ | hu
    · rw [hu] at hc
      have hc2 : c = flowsRecord r found := by simpa using hc
      subst hc2
      refine ⟨?_, rfl, ?_, id, found, hparse, hfound, rfl, rfl, rfl⟩
      · intro hp
        have hp2 : found.IsPublic = true := hp
        simp [flowsRecord, hp2]
      · intro hp
        have hp2 : found.IsPublic = false := hp
        simp [flowsRecord, hp2]
    · rw [hu] at hc
      simp at hc
  · rcases hcases with ⟨id, found, _, _, hu⟩ | hu <;> rw [hu] <;> simp
  · intro hno
    apply oauth2_flows_not_reached
    rintro ⟨j, id, found, hj, _, _, _, _, hauth⟩
    exact hno ⟨j, hj, hauth⟩
  · intro j id found hj hlen hparse hget hfound hauth
    exact oauth2_flows_reached env store r clientID w j id found hj hlen hparse hget hfound hauth

/-- C21 at a POST with both boxes ticked for a public client by a caller with the admin
scope: the record written has the authorization-code flow on and the client-credentials
flow off. -/
theorem oauth2_flows_update_witness :
    clientUpdates (handleAdminClientManageOAuth2Post sampleEnv sampleStore
      (flowsRequest (some adminJwt)) "3" adminWorld).trace = [⟨3, "spa", true, true, false⟩] ∧
    clientUpdates (handleAdminClientManageOAuth2Post sampleEnv sampleStore
      (flowsRequest (some (sampleJwt .AcrLevel2))) "3" adminWorld).trace = [] :=
  ⟨(oauth2_flows_update sampleEnv sampleStore (flowsRequest (some adminJwt)) "3"
      adminWorld).2.2.2 adminJwt 3 publicClient rfl (by decide) (by decide) rfl (by decide)
      (by decide),
   ((oauth2_flows_update sampleEnv sampleStore (flowsRequest (some (sampleJwt .AcrLevel2))) "3"
      adminWorld).2.2.1 (by
        rintro ⟨j, hj, hauth⟩
        have e : j = sampleJwt .AcrLevel2 := by
          have : contextJwtInfo (flowsRequest (some (sampleJwt .AcrLevel2))).ctxJwtInfo
              = some (sampleJwt .AcrLevel2) := rfl
          rw [this] at hj
          exact (Option.some.inj hj).symm
        subst e
        exact absurd hauth (by decide))).1⟩

end Goiabada
